import Mathlib

/-!
# Profile client (`src/frontend/script.js`): embedding and checked properties

The script is a browser client: three module variables (`token`, `currentUser`,
`userProfile`), `localStorage`, a handful of DOM elements and one `fetch` per handler.
It is embedded as state-passing code:

* `JsVal` is the JavaScript value a variable of the script can hold (JSON values,
  `undefined`, and built-in functions such as `String.prototype.sub`);
* `State` holds the module variables, `localStorage`, the DOM facts the script reads or
  writes, and a log of the network exchanges;
* `Js` is the script's control flow: a computation changes the state and either returns
  or throws, and what it changed before throwing stays changed; property reads on
  `null` and `undefined`, method calls on values without the method, and conversions to
  text (`toStr`: template literals, `setItem`, `new Date`) are the steps that can throw;
* the outcome of every `fetch` is an argument of the handler that issues it
  (`FetchResult`), so a handler is a function of the state and what the gateway did;
* `Browser` holds the built-ins whose results the script only passes on
  (`JSON.parse`, `JSON.stringify`, `Date.prototype.toLocaleDateString`).

Assumptions of the embedding: the page defines every element id the script looks up and
`localStorage` has room; an `async` call that is not awaited (`loadProfile()` at the end
of a handler) runs to completion before the next handler starts; timers are not part of
the state, so `alerts` lists the notices shown so far and not their removal after five
seconds. A number is given by what the script can see of it: whether it is zero and the
text ToString gives for it. A built-in function is printed as Chromium prints it.
-/

namespace Frontend

/-! ## JavaScript values -/

/-- A value held by a variable of the script: a JSON value, `undefined`, or a built-in
function. A number is given by whether it is zero and by its ToString text; an object by
its own properties in order, each name once. -/
inductive JsVal where
  | undefined
  | null
  | bool (b : Bool)
  | num (zero : Bool) (text : String)
  | str (s : String)
  | arr (items : List JsVal)
  | obj (fields : List (String × JsVal))
  | fn (name : String)

namespace JsVal

/-- Whether an object has an own property of the given name. -/
def hasKey (k : String) : List (String × JsVal) → Bool
  | [] => false
  | (k1, _) :: rest => k1 == k || hasKey k rest

mutual
/-- ToString, as in a template literal or `localStorage.setItem`. An object is printed by
`Object.prototype.toString` unless it has an own property `toString`: the values of this
model are never functions that return a primitive, so the conversion then throws a
TypeError. An array is joined, which converts its elements. A built-in function is
printed as Chromium prints it. -/
def toStr : JsVal → Except String String
  | undefined => .ok "undefined"
  | null => .ok "null"
  | bool true => .ok "true"
  | bool false => .ok "false"
  | num _ text => .ok text
  | str s => .ok s
  | arr items => joinItems items
  | obj fields => if hasKey "toString" fields then .error "TypeError" else .ok "[object Object]"
  | fn name => .ok ("function " ++ name ++ "() \x7b [native code] \x7d")
termination_by structural v => v
/-- The text of `Array.prototype.join(",")`, which is what ToString of an array is: the
elements are converted in order, `undefined` and `null` to the empty text. -/
def joinItems : List JsVal → Except String String
  | [] => .ok ""
  | x :: rest =>
    match (match x with
      | undefined => Except.ok ""
      | null => Except.ok ""
      | v => toStr v) with
    | .error e => .error e
    | .ok t =>
      match joinItems rest with
      | .error e => .error e
      | .ok ts => .ok (t ++ (match rest with | [] => "" | _ => ",") ++ ts)
termination_by structural l => l
end

/-- The conversion of a value assigned to the `value` of an input: `null` gives the empty
text, anything else its ToString. -/
def toInputValue : JsVal → Except String String
  | null => .ok ""
  | v => v.toStr

/-- The number of a count, such as a `length` or a status code. -/
def ofNat (n : Nat) : JsVal := num (n == 0) (toString n)

/-- ToBoolean: `undefined`, `null`, `false`, `0` and `""` are falsy. -/
def truthy : JsVal → Bool
  | undefined => false
  | null => false
  | bool b => b
  | num zero _ => !zero
  | str s => s != ""
  | _ => true

/-- The operator `a || b`. -/
def orElse (a b : JsVal) : JsVal := if a.truthy then a else b

/-- Whether property access on the value throws a TypeError. -/
def nullish : JsVal → Bool
  | undefined => true
  | null => true
  | _ => false

/-- Number of UTF-16 code units of a string (`String.prototype.length`). -/
def utf16Length (s : String) : Nat :=
  (s.toList.map (fun c => if c.toNat < 65536 then 1 else 2)).sum

/-- First value stored under a key in the own properties of an object. -/
def lookup (k : String) : List (String × JsVal) → JsVal
  | [] => undefined
  | (k1, v) :: rest => if k1 = k then v else lookup k rest

/-- Property read `v.k`, for the property names the script reads
(`message`, `token`, `sub`, `username`, `user_id`, `full_name`, `email`, `bio`,
`created_at`, `length`): an own property of an object, `length` of a string, an array or
a function, `String.prototype.sub` on a string, otherwise `undefined`; on `undefined`
and `null` it throws. -/
def getProp (v : JsVal) (k : String) : Except String JsVal :=
  match v with
  | undefined => .error "TypeError"
  | null => .error "TypeError"
  | obj fields => .ok (lookup k fields)
  | str s =>
    if k = "length" then .ok (ofNat (utf16Length s))
    else if k = "sub" then .ok (fn "sub")
    else .ok undefined
  | arr items => if k = "length" then .ok (ofNat items.length) else .ok undefined
  | fn _ => if k = "length" then .ok (ofNat 0) else .ok undefined
  | _ => .ok undefined

end JsVal

/-! ## Strings: `split`, `atob` -/

/-- Pieces of a character list between occurrences of a separator
(`String.prototype.split` with a one-character separator). -/
def splitChars (sep : Char) : List Char → List (List Char)
  | [] => [[]]
  | c :: rest =>
    if c = sep then [] :: splitChars sep rest
    else
      match splitChars sep rest with
      | [] => [[c]]
      | piece :: more => (c :: piece) :: more

/-- The method call `v.split(sep)`: only a string has the method. -/
def jsSplit (v : JsVal) (sep : Char) : Except String (List String) :=
  match v with
  | .str s => .ok ((splitChars sep s.toList).map String.mk)
  | _ => .error "TypeError"

/-- Array element read `xs[i]`. -/
def jsIndex (xs : List String) (i : Nat) : JsVal :=
  match xs.get? i with
  | some s => .str s
  | none => .undefined

/-- ASCII whitespace, which `atob` removes first. -/
def isAsciiWhitespace (c : Char) : Bool :=
  c.toNat = 9 || c.toNat = 10 || c.toNat = 12 || c.toNat = 13 || c.toNat = 32

/-- Value of a character of the standard base64 alphabet `A-Z a-z 0-9 + /`. -/
def base64Value (c : Char) : Option Nat :=
  let n := c.toNat
  if 65 ≤ n ∧ n ≤ 90 then some (n - 65)
  else if 97 ≤ n ∧ n ≤ 122 then some (n - 97 + 26)
  else if 48 ≤ n ∧ n ≤ 57 then some (n - 48 + 52)
  else if n = 43 then some 62
  else if n = 47 then some 63
  else none

/-- Values of all characters, or `none` when one is outside the alphabet. -/
def base64Values : List Char → Option (List Nat)
  | [] => some []
  | c :: rest =>
    match base64Value c, base64Values rest with
    | some v, some vs => some (v :: vs)
    | _, _ => none

/-- Bytes of a list of 6-bit values: 24 bits give three bytes, a final 18 bits two and a
final 12 bits one. -/
def sextetsToBytes : List Nat → List Nat
  | a :: b :: c :: d :: rest =>
    let n := ((a * 64 + b) * 64 + c) * 64 + d
    (n / 65536) :: (n / 256 % 256) :: (n % 256) :: sextetsToBytes rest
  | [a, b, c] =>
    let n := ((a * 64 + b) * 64 + c) / 4
    [n / 256, n % 256]
  | [a, b] => [(a * 64 + b) / 16]
  | _ => []

/-- Removal of one or two final `=` when the length is a multiple of four. -/
def stripPadding (cs : List Char) : List Char :=
  if cs.length % 4 = 0 then
    match cs.reverse with
    | '=' :: '=' :: rest => rest.reverse
    | '=' :: rest => rest.reverse
    | _ => cs
  else cs

/-- The built-in `atob` (forgiving base64 decoding): it throws on a character outside
`A-Z a-z 0-9 + /` and on a length of 1 modulo 4, and returns one character per byte. -/
def atob (data : String) : Except String String :=
  let cs := stripPadding (data.toList.filter (fun c => !isAsciiWhitespace c))
  if cs.length % 4 = 1 then .error "InvalidCharacterError"
  else
    match base64Values cs with
    | none => .error "InvalidCharacterError"
    | some vs => .ok (String.mk ((sextetsToBytes vs).map Char.ofNat))

/-! ## The browser, the gateway and the page -/

/-- Built-ins whose result the script only passes on. -/
structure Browser where
  /-- Result of `JSON.parse(text)`; `none` when it throws. -/
  jsonParse : String → Option JsVal
  /-- Result of `JSON.stringify(value)`. -/
  jsonStringify : JsVal → String
  /-- Result of `JSON.stringify(value, null, 2)`. -/
  jsonStringifyPretty : JsVal → String
  /-- Result of `new Date(value).toLocaleDateString()` for a value the `Date` constructor
  accepts. -/
  toLocaleDateString : JsVal → String
  /-- Message of the TypeError that ToString throws. -/
  toPrimitiveErrorMessage : String

/-- A response of the gateway: `json` is what `response.json()` resolves to, or the
message of the error it rejects with when the body is not JSON. -/
structure Response where
  status : Nat
  statusText : String
  json : Except String JsVal

/-- The flag `response.ok`: the status is in 200..299. -/
def Response.ok (r : Response) : Bool := decide (200 ≤ r.status) && decide (r.status ≤ 299)

/-- What `await fetch(...)` does: it throws (with a message) or gives a response. -/
inductive FetchResult where
  | networkError (message : String)
  | response (r : Response)

/-- A request as passed to `fetch`. -/
structure Request where
  method : String
  url : String
  headers : List (String × String)
  body : Option String

/-- One call of `fetch`: the function that made it, the request and what came of it. -/
structure Exchange where
  issuer : String
  request : Request
  result : FetchResult

/-- A notice appended to `alertContainer`. -/
structure Alert where
  className : String
  innerHTML : String
  deriving DecidableEq

/-- The module variables, `localStorage`, the DOM facts the script reads or writes, the
notices shown so far and the network exchanges so far. -/
structure State where
  token : JsVal
  currentUser : JsVal
  userProfile : JsVal
  storage : String → Option String
  loginCardHidden : Bool
  registerCardHidden : Bool
  authSectionHidden : Bool
  dashboardSectionHidden : Bool
  userInfoHidden : Bool
  profileFormCardHidden : Bool
  editModalActive : Bool
  deleteModalActive : Bool
  gatewayStatusOffline : Bool
  authStatusOffline : Bool
  userStatusOffline : Bool
  regUsername : String
  regEmail : String
  regPassword : String
  loginUsername : String
  loginPassword : String
  profileEmail : String
  profileFullName : String
  profileBio : String
  editFullName : String
  editBio : String
  apiEndpoint : String
  userBadge : String
  profileFormTitle : String
  profileContent : String
  usersContent : String
  apiResponse : String
  alerts : List Alert
  log : List Exchange

/-- The constant `GATEWAY_URL`. -/
def GATEWAY_URL : String := "http://localhost:3002"

/-- The text shown by every `catch` block that reports. -/
def connectMessage : String := "Failed to connect to server"

/-! ## Control flow -/

/-- A computation of the script: from a state it returns a value or throws a message, and
leaves a state in both cases. -/
def Js (α : Type) : Type := State → Except String α × State

namespace Js

/-- Return a value without touching the state. -/
def ret {α : Type} (a : α) : Js α := fun s => (.ok a, s)

/-- Sequencing: a throw in the first part skips the second and keeps the state. -/
def andThen {α β : Type} (m : Js α) (f : α → Js β) : Js β := fun s =>
  match m s with
  | (.ok a, s1) => f a s1
  | (.error e, s1) => (.error e, s1)

instance : Monad Js where
  pure := ret
  bind := andThen

/-- The statement `throw`. -/
def raise {α : Type} (e : String) : Js α := fun s => (.error e, s)

/-- The current state. -/
def get : Js State := fun s => (.ok s, s)

/-- A state update. -/
def modify (f : State → State) : Js Unit := fun s => (.ok (), f s)

/-- A pure operation that may throw. -/
def lift {α : Type} (x : Except String α) : Js α := fun s => (x, s)

/-- The statement `try ... catch (e) ...`. -/
def tryCatch (body : Js Unit) (handler : String → Js Unit) : Js Unit := fun s =>
  match body s with
  | (.ok a, s1) => (.ok a, s1)
  | (.error e, s1) => handler e s1

/-- A call of an `async` function that is not awaited: its effects happen, what it throws
goes to its promise and not to the caller. -/
def detach (m : Js Unit) : Js Unit := fun s => (.ok (), (m s).2)

/-- The state a computation leaves. -/
def exec {α : Type} (m : Js α) (s : State) : State := (m s).2

end Js

/-- The call `await fetch(...)`: the exchange is logged, then the result is returned or
thrown. -/
def fetch (issuer : String) (req : Request) (res : FetchResult) : Js Response := fun s =>
  let s1 := { s with log := s.log ++ [⟨issuer, req, res⟩] }
  match res with
  | .networkError e => (.error e, s1)
  | .response r => (.ok r, s1)

/-- The call `localStorage.setItem(key, value)`: the value is converted to a text first,
which may throw. -/
def setItem (key : String) (value : JsVal) : Js Unit := do
  let text ← Js.lift value.toStr
  Js.modify fun s => { s with storage := fun k => if k = key then some text else s.storage k }

/-- The expression `new Date(value).toLocaleDateString()`: the constructor converts an
object or array to a primitive, which throws exactly when ToString of it throws. -/
def dateText (B : Browser) (value : JsVal) : Except String String :=
  match value.toStr with
  | .error e => .error e
  | .ok _ => .ok (B.toLocaleDateString value)

/-- The call `localStorage.removeItem(key)`. -/
def removeItem (key : String) : Js Unit :=
  Js.modify fun s => { s with storage := fun k => if k = key then none else s.storage k }

/-! ## The functions of `script.js` -/

/-- Lines 15-26: one probe of the gateway root decides all three status dots. -/
def checkServiceStatus (res : FetchResult) : Js Unit :=
  Js.tryCatch
    (do
      let _ ← fetch "checkServiceStatus" ⟨"GET", GATEWAY_URL ++ "/", [], none⟩ res
      Js.modify fun s => { s with gatewayStatusOffline := false }
      Js.modify fun s => { s with authStatusOffline := false }
      Js.modify fun s => { s with userStatusOffline := false })
    (fun _ => do
      Js.modify fun s => { s with gatewayStatusOffline := true }
      Js.modify fun s => { s with authStatusOffline := true }
      Js.modify fun s => { s with userStatusOffline := true })

/-- Lines 28-35: the markup is built from the message, which may throw, and then the
notice is appended; its removal after five seconds is a timer and is not part of the
state. -/
def showAlert (message : JsVal) (type : String) : Js Unit := do
  let text ← Js.lift message.toStr
  Js.modify fun s =>
    { s with alerts := s.alerts ++ [⟨"alert alert-" ++ type, "<span>" ++ text ++ "</span>"⟩] }

/-- Lines 37-40. -/
def showLogin : Js Unit :=
  Js.modify fun s => { s with loginCardHidden := false, registerCardHidden := true }

/-- Lines 42-45. -/
def showRegister : Js Unit :=
  Js.modify fun s => { s with loginCardHidden := true, registerCardHidden := false }

/-- Lines 47-69. -/
def handleRegister (B : Browser) (res : FetchResult) : Js Unit := do
  let s ← Js.get
  let username := s.regUsername
  let email := s.regEmail
  let password := s.regPassword
  Js.tryCatch
    (do
      let response ← fetch "handleRegister"
        ⟨"POST", GATEWAY_URL ++ "/api/register", [("Content-Type", "application/json")],
          some (B.jsonStringify (.obj [("username", .str username), ("email", .str email),
            ("password", .str password)]))⟩ res
      let data ← Js.lift response.json
      if response.ok then
        showAlert (.str "Registration successful! Please login.") "success"
        showLogin
        Js.modify fun s => { s with loginUsername := username }
      else
        let message ← Js.lift (data.getProp "message")
        showAlert (message.orElse (.str "Registration failed")) "error")
    (fun _ => showAlert (.str connectMessage) "error")

/-- Lines 109-114. -/
def showDashboard : Js Unit := do
  Js.modify fun s => { s with authSectionHidden := true }
  Js.modify fun s => { s with dashboardSectionHidden := false }
  Js.modify fun s => { s with userInfoHidden := false }
  let s ← Js.get
  let username ← Js.lift (s.currentUser.getProp "username")
  let text ← Js.lift username.toStr
  Js.modify fun s => { s with userBadge := "👤 " ++ text }

/-- Lines 116-120. -/
def showAuth : Js Unit := do
  Js.modify fun s => { s with authSectionHidden := false }
  Js.modify fun s => { s with dashboardSectionHidden := true }
  Js.modify fun s => { s with userInfoHidden := true }

/-- The markup of lines 147-171 around the five interpolated values. -/
def profileHtml (fullName username email bio since : String) : String :=
  "\n                <div style=\"display: grid; gap: 1rem;\">\n                    <div style=\"display: flex; justify-content: space-between; align-items: start;\">\n                        <div>\n                            <h3 style=\"font-size: 1.5rem; margin-bottom: 0.5rem;\">"
  ++ fullName ++
  "</h3>\n                            <p style=\"color: var(--muted);\">@"
  ++ username ++
  "</p>\n                        </div>\n                        <div style=\"display: flex; gap: 0.5rem;\">\n                            <button class=\"btn btn-secondary\" onclick=\"showEditModal()\">✏️ Edit</button>\n                            <button class=\"btn btn-danger\" onclick=\"showDeleteModal()\">🗑️ Delete</button>\n                        </div>\n                    </div>\n                    <div style=\"background: var(--dark); padding: 1rem; border-radius: 8px;\">\n                        <p style=\"color: var(--muted); font-size: 0.85rem; margin-bottom: 0.25rem;\">Email</p>\n                        <p>"
  ++ email ++
  "</p>\n                    </div>\n                    <div style=\"background: var(--dark); padding: 1rem; border-radius: 8px;\">\n                        <p style=\"color: var(--muted); font-size: 0.85rem; margin-bottom: 0.25rem;\">Bio</p>\n                        <p>"
  ++ bio ++
  "</p>\n                    </div>\n                    <div style=\"background: var(--dark); padding: 1rem; border-radius: 8px;\">\n                        <p style=\"color: var(--muted); font-size: 0.85rem; margin-bottom: 0.25rem;\">Member Since</p>\n                        <p>"
  ++ since ++
  "</p>\n                    </div>\n                </div>"

/-- The template literal of lines 147-171: the values are read and converted in the
order in which they stand. -/
def profileMarkup (B : Browser) (profile : JsVal) : Except String String := do
  let fullName ← profile.getProp "full_name"
  let fullNameText ← fullName.toStr
  let username ← profile.getProp "username"
  let usernameText ← username.toStr
  let email ← profile.getProp "email"
  let emailText ← email.toStr
  let bio ← profile.getProp "bio"
  let bioText ← (bio.orElse (.str "No bio provided")).toStr
  let createdAt ← profile.getProp "created_at"
  let since ← dateText B createdAt
  pure (profileHtml fullNameText usernameText emailText bioText since)

/-- Lines 146-173. -/
def renderProfile (B : Browser) : Js Unit := do
  let s ← Js.get
  let html ← Js.lift (profileMarkup B s.userProfile)
  Js.modify fun s => { s with profileContent := html }
  Js.modify fun s => { s with profileFormCardHidden := true }

/-- The markup of lines 176-181. -/
def noProfileHtml : String :=
  "\n                <div class=\"empty-state\">\n                    <div class=\"icon\">📋</div>\n                    <p>No profile created yet</p>\n                    <button class=\"btn btn-primary\" style=\"margin-top: 1rem\" onclick=\"showCreateProfile()\">Create Profile</button>\n                </div>"

/-- Lines 175-182. -/
def renderNoProfile : Js Unit :=
  Js.modify fun s => { s with profileContent := noProfileHtml }

/-- Lines 130-144. -/
def loadProfile (B : Browser) (res : FetchResult) : Js Unit :=
  Js.tryCatch
    (do
      let s ← Js.get
      let userId ← Js.lift (s.currentUser.getProp "user_id")
      let idText ← Js.lift userId.toStr
      let tokenText ← Js.lift s.token.toStr
      let response ← fetch "loadProfile"
        ⟨"GET", GATEWAY_URL ++ "/api/users/" ++ idText,
          [("Authorization", "Bearer " ++ tokenText)], none⟩ res
      if response.ok then
        let body ← Js.lift response.json
        Js.modify fun s => { s with userProfile := body }
        renderProfile B
      else
        renderNoProfile)
    (fun _ => renderNoProfile)

/-- Lines 71-97. The second result is that of the `fetch` made by the `loadProfile()` call
of line 90. -/
def handleLogin (B : Browser) (res profileRes : FetchResult) : Js Unit := do
  let s ← Js.get
  let username := s.loginUsername
  let password := s.loginPassword
  Js.tryCatch
    (do
      let response ← fetch "handleLogin"
        ⟨"POST", GATEWAY_URL ++ "/api/login", [("Content-Type", "application/json")],
          some (B.jsonStringify (.obj [("username", .str username), ("password", .str password)]))⟩
        res
      let data ← Js.lift response.json
      if response.ok then
        let tok ← Js.lift (data.getProp "token")
        Js.modify fun s => { s with token := tok }
        setItem "token" tok
        let parts ← Js.lift (jsSplit tok '.')
        let segment ← Js.lift (jsIndex parts 1).toStr
        let decoded ← Js.lift (atob segment)
        let payload ← Js.lift (match B.jsonParse decoded with
          | some v => .ok v
          | none => .error "SyntaxError")
        let sub ← Js.lift (payload.getProp "sub")
        let name ← Js.lift (payload.getProp "username")
        let user := JsVal.obj [("user_id", sub), ("username", name)]
        Js.modify fun s => { s with currentUser := user }
        setItem "currentUser" (.str (B.jsonStringify user))
        showAlert (.str "Login successful!") "success"
        showDashboard
        Js.detach (loadProfile B profileRes)
      else
        let message ← Js.lift (data.getProp "message")
        showAlert (message.orElse (.str "Login failed")) "error")
    (fun _ => showAlert (.str connectMessage) "error")

/-- Lines 99-107. -/
def logout : Js Unit := do
  Js.modify fun s => { s with token := .null }
  Js.modify fun s => { s with currentUser := .null }
  Js.modify fun s => { s with userProfile := .null }
  removeItem "token"
  removeItem "currentUser"
  showAuth
  showAlert (.str "Logged out successfully") "info"

/-- Lines 184-190. -/
def showCreateProfile : Js Unit := do
  Js.modify fun s => { s with profileFormCardHidden := false }
  Js.modify fun s => { s with profileFormTitle := "✨ Create Profile" }
  Js.modify fun s => { s with profileEmail := "" }
  Js.modify fun s => { s with profileFullName := "" }
  Js.modify fun s => { s with profileBio := "" }

/-- Lines 192-194. -/
def hideProfileForm : Js Unit :=
  Js.modify fun s => { s with profileFormCardHidden := true }

/-- Lines 196-221. The object of lines 198-204 is built before the `try`, so a throw
there leaves the function. The second result is that of the `fetch` made by the
`loadProfile()` call of line 213. -/
def handleSaveProfile (B : Browser) (res profileRes : FetchResult) : Js Unit := do
  let s ← Js.get
  let userId ← Js.lift (s.currentUser.getProp "user_id")
  let username ← Js.lift (s.currentUser.getProp "username")
  let profileData := JsVal.obj [("user_id", userId), ("username", username),
    ("email", .str s.profileEmail), ("full_name", .str s.profileFullName),
    ("bio", .str s.profileBio)]
  Js.tryCatch
    (do
      let s ← Js.get
      let tokenText ← Js.lift s.token.toStr
      let response ← fetch "handleSaveProfile"
        ⟨"POST", GATEWAY_URL ++ "/api/users",
          [("Content-Type", "application/json"), ("Authorization", "Bearer " ++ tokenText)],
          some (B.jsonStringify profileData)⟩ res
      if response.ok then
        showAlert (.str "Profile created successfully!") "success"
        Js.detach (loadProfile B profileRes)
      else
        let data ← Js.lift response.json
        let message ← Js.lift (data.getProp "message")
        showAlert (message.orElse (.str "Failed to create profile")) "error")
    (fun _ => showAlert (.str connectMessage) "error")

/-- Lines 223-227. -/
def showEditModal : Js Unit := do
  let s ← Js.get
  let fullName ← Js.lift (s.userProfile.getProp "full_name")
  let fullNameText ← Js.lift fullName.toInputValue
  Js.modify fun s => { s with editFullName := fullNameText }
  let bio ← Js.lift (s.userProfile.getProp "bio")
  let bioText ← Js.lift (bio.orElse (.str "")).toInputValue
  Js.modify fun s => { s with editBio := bioText }
  Js.modify fun s => { s with editModalActive := true }

/-- Lines 229-231. -/
def closeModal : Js Unit :=
  Js.modify fun s => { s with editModalActive := false }

/-- Lines 233-256. The second result is that of the `fetch` made by the `loadProfile()`
call of line 248. -/
def handleUpdateProfile (B : Browser) (res profileRes : FetchResult) : Js Unit := do
  let s ← Js.get
  let updateData := JsVal.obj [("full_name", .str s.editFullName), ("bio", .str s.editBio)]
  Js.tryCatch
    (do
      let s ← Js.get
      let userId ← Js.lift (s.currentUser.getProp "user_id")
      let idText ← Js.lift userId.toStr
      let tokenText ← Js.lift s.token.toStr
      let response ← fetch "handleUpdateProfile"
        ⟨"PUT", GATEWAY_URL ++ "/api/users/" ++ idText,
          [("Content-Type", "application/json"), ("Authorization", "Bearer " ++ tokenText)],
          some (B.jsonStringify updateData)⟩ res
      if response.ok then
        showAlert (.str "Profile updated successfully!") "success"
        closeModal
        Js.detach (loadProfile B profileRes)
      else
        let data ← Js.lift response.json
        let message ← Js.lift (data.getProp "message")
        showAlert (message.orElse (.str "Failed to update profile")) "error")
    (fun _ => showAlert (.str connectMessage) "error")

/-- Lines 258-260. -/
def showDeleteModal : Js Unit :=
  Js.modify fun s => { s with deleteModalActive := true }

/-- Lines 262-264. -/
def closeDeleteModal : Js Unit :=
  Js.modify fun s => { s with deleteModalActive := false }

/-- Lines 266-284. -/
def confirmDelete (res : FetchResult) : Js Unit :=
  Js.tryCatch
    (do
      let s ← Js.get
      let userId ← Js.lift (s.currentUser.getProp "user_id")
      let idText ← Js.lift userId.toStr
      let tokenText ← Js.lift s.token.toStr
      let response ← fetch "confirmDelete"
        ⟨"DELETE", GATEWAY_URL ++ "/api/users/" ++ idText,
          [("Authorization", "Bearer " ++ tokenText)], none⟩ res
      if response.ok then
        showAlert (.str "Profile deleted successfully!") "success"
        closeDeleteModal
        Js.modify fun s => { s with userProfile := .null }
        renderNoProfile
      else
        let data ← Js.lift response.json
        let message ← Js.lift (data.getProp "message")
        showAlert (message.orElse (.str "Failed to delete profile")) "error")
    (fun _ => showAlert (.str connectMessage) "error")

/-- The markup of line 288. -/
def loadingHtml : String := "<div class=\"loading\"></div>"

/-- The markup of line 296. -/
def noUsersHtml : String :=
  "<div class=\"empty-state\"><div class=\"icon\">👥</div><p>No users found</p></div>"

/-- The markup of lines 299-302, before the rows. -/
def usersTableOpen : String :=
  "\n                        <table class=\"users-table\">\n                            <thead><tr><th>Username</th><th>Full Name</th><th>Email</th><th>Bio</th><th>Joined</th></tr></thead>\n                            <tbody>"

/-- The markup of lines 310-311, after the rows. -/
def usersTableClose : String :=
  "\n                            </tbody>\n                        </table>"

/-- The markup of lines 303-309 around the five interpolated values. -/
def userRowHtml (username fullName email bio joined : String) : String :=
  "\n                                <tr>\n                                    <td><strong>@"
  ++ username ++
  "</strong></td>\n                                    <td>"
  ++ fullName ++
  "</td>\n                                    <td>"
  ++ email ++
  "</td>\n                                    <td style=\"max-width: 200px; overflow: hidden; text-overflow: ellipsis; white-space: nowrap;\">"
  ++ bio ++
  "</td>\n                                    <td>"
  ++ joined ++
  "</td>\n                                </tr>"

/-- The arrow function of lines 302-309: the row of one user. -/
def userRow (B : Browser) (user : JsVal) : Except String String := do
  let username ← user.getProp "username"
  let usernameText ← username.toStr
  let fullName ← user.getProp "full_name"
  let fullNameText ← fullName.toStr
  let email ← user.getProp "email"
  let emailText ← email.toStr
  let bio ← user.getProp "bio"
  let bioText ← (bio.orElse (.str "-")).toStr
  let createdAt ← user.getProp "created_at"
  let joined ← dateText B createdAt
  pure (userRowHtml usernameText fullNameText emailText bioText joined)

/-- The rows of all users in order, or the first throw. -/
def userRows (B : Browser) : List JsVal → Except String (List String)
  | [] => .ok []
  | user :: rest =>
    match userRow B user with
    | .error e => .error e
    | .ok row =>
      match userRows B rest with
      | .error e => .error e
      | .ok rows => .ok (row :: rows)

/-- The method call `users.map(user => ...)`: only an array has the method. -/
def jsMapRows (B : Browser) (users : JsVal) : Except String (List String) :=
  match users with
  | .arr items => userRows B items
  | _ => .error "TypeError"

/-- The test `v === t` against a string literal. -/
def strictEqStr : JsVal → String → Bool
  | .str s, t => s == t
  | _, _ => false

/-- The test `v === 0`. -/
def isZero : JsVal → Bool
  | .num zero _ => zero
  | _ => false

/-- The markup of lines 314 and 317 around the message. -/
def usersErrorHtml (message : String) : String :=
  "<div class=\"alert alert-error\">" ++ message ++ "</div>"

/-- Lines 286-319. -/
def loadUsers (B : Browser) (res : FetchResult) : Js Unit := do
  Js.modify fun s => { s with usersContent := loadingHtml }
  Js.tryCatch
    (do
      let s ← Js.get
      let tokenText ← Js.lift s.token.toStr
      let response ← fetch "loadUsers"
        ⟨"GET", GATEWAY_URL ++ "/api/users", [("Authorization", "Bearer " ++ tokenText)],
          none⟩ res
      if response.ok then
        let users ← Js.lift response.json
        let length ← Js.lift (users.getProp "length")
        if isZero length then
          Js.modify fun s => { s with usersContent := noUsersHtml }
        else
          let rows ← Js.lift (jsMapRows B users)
          let html := usersTableOpen ++ String.join rows ++ usersTableClose
          Js.modify fun s => { s with usersContent := html }
      else
        let data ← Js.lift response.json
        let message ← Js.lift (data.getProp "message")
        let text ← Js.lift (message.orElse (.str "Failed to load users")).toStr
        let html := usersErrorHtml text
        Js.modify fun s => { s with usersContent := html })
    (fun _ => Js.modify fun s => { s with usersContent := usersErrorHtml connectMessage })

/-- Lines 321-338. The errors caught here are those of `fetch` and `response.json()`,
which carry their message, and the TypeError of `Bearer ${token}`, whose message is the
browser's. -/
def testApi (B : Browser) (res : FetchResult) : Js Unit := do
  let s ← Js.get
  let endpoint := s.apiEndpoint
  Js.modify fun s => { s with apiResponse := "Loading..." }
  let parts := (splitChars ' ' endpoint.toList).map String.mk
  let method := jsIndex parts 0
  let path := jsIndex parts 1
  Js.tryCatch
    (do
      let s ← Js.get
      let methodText ← Js.lift method.toStr
      let tokenText ← Js.lift (match s.token.toStr with
        | .ok t => .ok t
        | .error _ => .error B.toPrimitiveErrorMessage)
      let auth := ("Authorization", "Bearer " ++ tokenText)
      let validate := strictEqStr method "POST" && strictEqStr path "/api/validate"
      let headers := if validate then [auth, ("Content-Type", "application/json")] else [auth]
      let body := if validate then some (B.jsonStringify (.obj [("token", s.token)])) else none
      let pathText ← Js.lift path.toStr
      let response ← fetch "testApi" ⟨methodText, GATEWAY_URL ++ pathText, headers, body⟩ res
      let data ← Js.lift response.json
      let text := B.jsonStringifyPretty (.obj [("status", .ofNat response.status),
        ("statusText", .str response.statusText), ("data", data)])
      Js.modify fun s => { s with apiResponse := text })
    (fun e =>
      let text := B.jsonStringifyPretty (.obj [("error", .str connectMessage), ("message", .str e)])
      Js.modify fun s => { s with apiResponse := text })

/-! ## Sequential runs -/

/-- The text inputs of the page. -/
inductive Field where
  | regUsername | regEmail | regPassword | loginUsername | loginPassword
  | profileEmail | profileFullName | profileBio | editFullName | editBio | apiEndpoint

/-- The user types a value into an input. -/
def setField (f : Field) (v : String) (s : State) : State :=
  match f with
  | .regUsername => { s with regUsername := v }
  | .regEmail => { s with regEmail := v }
  | .regPassword => { s with regPassword := v }
  | .loginUsername => { s with loginUsername := v }
  | .loginPassword => { s with loginPassword := v }
  | .profileEmail => { s with profileEmail := v }
  | .profileFullName => { s with profileFullName := v }
  | .profileBio => { s with profileBio := v }
  | .editFullName => { s with editFullName := v }
  | .editBio => { s with editBio := v }
  | .apiEndpoint => { s with apiEndpoint := v }

/-- One thing that happens on the page: the user types, or a function of the script runs
with the results of the `fetch` calls it makes. -/
inductive Event where
  | type (f : Field) (v : String)
  | checkServiceStatus (res : FetchResult)
  | showLogin
  | showRegister
  | handleRegister (res : FetchResult)
  | handleLogin (res profileRes : FetchResult)
  | logout
  | loadProfile (res : FetchResult)
  | showCreateProfile
  | hideProfileForm
  | handleSaveProfile (res profileRes : FetchResult)
  | showEditModal
  | closeModal
  | handleUpdateProfile (res profileRes : FetchResult)
  | showDeleteModal
  | closeDeleteModal
  | confirmDelete (res : FetchResult)
  | loadUsers (res : FetchResult)
  | testApi (res : FetchResult)

/-- The computation an event stands for. -/
def handlerOf (B : Browser) : Event → Js Unit
  | .type f v => Js.modify (setField f v)
  | .checkServiceStatus res => checkServiceStatus res
  | .showLogin => showLogin
  | .showRegister => showRegister
  | .handleRegister res => handleRegister B res
  | .handleLogin res profileRes => handleLogin B res profileRes
  | .logout => logout
  | .loadProfile res => loadProfile B res
  | .showCreateProfile => showCreateProfile
  | .hideProfileForm => hideProfileForm
  | .handleSaveProfile res profileRes => handleSaveProfile B res profileRes
  | .showEditModal => showEditModal
  | .closeModal => closeModal
  | .handleUpdateProfile res profileRes => handleUpdateProfile B res profileRes
  | .showDeleteModal => showDeleteModal
  | .closeDeleteModal => closeDeleteModal
  | .confirmDelete res => confirmDelete res
  | .loadUsers res => loadUsers B res
  | .testApi res => testApi B res

/-- The state after one event. -/
def step (B : Browser) (s : State) (ev : Event) : State := (handlerOf B ev).exec s

/-- The state after a sequence of events, one after the other. -/
def run (B : Browser) (s : State) (events : List Event) : State :=
  events.foldl (step B) s

/-- The state without the record of network exchanges: what the script and the page
hold. -/
def State.forgetLog (s : State) : State := { s with log := [] }

/-! ## Notions of the specification -/

/-- The body read by an exchange that is a successful profile read: a `fetch` made by
`loadProfile` whose response is 2xx and has a JSON body. A 2xx response whose body is not
JSON is no read. -/
def profileReadOf (x : Exchange) : Option JsVal :=
  if x.issuer = "loadProfile" then
    match x.result with
    | .response r =>
      if r.ok then
        match r.json with
        | .ok body => some body
        | .error _ => none
      else none
    | .networkError _ => none
  else none

/-- The body of the most recent successful profile read of a log, if there is one. -/
def lastProfileRead (log : List Exchange) : Option JsVal :=
  (log.reverse.filterMap profileReadOf).head?

/-- The profile cache is empty or mirrors the most recent successful profile read. -/
def CacheInv (s : State) : Prop :=
  s.userProfile = .null ∨ lastProfileRead s.log = some s.userProfile

/-- A computation keeps the cache invariant, whether it returns or throws. -/
def Preserves {α : Type} (m : Js α) : Prop := ∀ s, CacheInv s → CacheInv (m s).2

/-- The UTF-8 bytes of a character (RFC 3629). -/
def utf8Char (c : Char) : List Nat :=
  let n := c.toNat
  if n < 128 then [n]
  else if n < 2048 then [192 + n / 64, 128 + n % 64]
  else if n < 65536 then [224 + n / 4096, 128 + n / 64 % 64, 128 + n % 64]
  else [240 + n / 262144, 128 + n / 4096 % 64, 128 + n / 64 % 64, 128 + n % 64]

/-- The UTF-8 bytes of a text. -/
def utf8Bytes (s : String) : List Nat := s.toList.flatMap utf8Char

/-- Character of the URL-safe base64 alphabet `A-Z a-z 0-9 - _` for a 6-bit value
(RFC 4648, section 5). -/
def base64urlChar (v : Nat) : Char :=
  if v < 26 then Char.ofNat (65 + v)
  else if v < 52 then Char.ofNat (97 + (v - 26))
  else if v < 62 then Char.ofNat (48 + (v - 52))
  else if v = 62 then '-'
  else '_'

/-- The base64url encoding of a byte sequence without padding, as a JWT segment is
encoded (RFC 7515, section 2). -/
def base64urlEncode : List Nat → List Char
  | a :: b :: c :: rest =>
    let n := (a * 256 + b) * 256 + c
    base64urlChar (n / 262144) :: base64urlChar (n / 4096 % 64) :: base64urlChar (n / 64 % 64)
      :: base64urlChar (n % 64) :: base64urlEncode rest
  | [a, b] =>
    let n := (a * 256 + b) * 4
    [base64urlChar (n / 4096), base64urlChar (n / 64 % 64), base64urlChar (n % 64)]
  | [a] => [base64urlChar (a * 16 / 64), base64urlChar (a * 16 % 64)]
  | [] => []

/-- The token is one the login code can decode: it is a string whose second
dot-separated piece `atob` accepts and whose decoded text `JSON.parse` reads as a value
with properties, whose `username` has a text for the badge. -/
def Decodable (B : Browser) (tok : JsVal) : Prop :=
  ∃ parts segment decoded payload name badge, jsSplit tok '.' = .ok parts
    ∧ (jsIndex parts 1).toStr = .ok segment ∧ atob segment = .ok decoded
    ∧ B.jsonParse decoded = some payload ∧ payload.getProp "username" = .ok name
    ∧ name.toStr = .ok badge

/-- The markup of the notice that `showAlert` makes. -/
def notice (type message : String) : Alert :=
  ⟨"alert alert-" ++ type, "<span>" ++ message ++ "</span>"⟩

/-- The notice of a connectivity failure. -/
def connectNotice : Alert := notice "error" "Failed to connect to server"

/-- The handler that took the first state to the second showed exactly one notice, and
its text is not the connectivity text. -/
def OtherNotice (before after : State) : Prop :=
  ∃ type text, after.alerts = before.alerts ++ [notice type text]
    ∧ text ≠ "Failed to connect to server"

/-- ToString of the value does not throw. -/
def HasText (v : JsVal) : Prop := ∃ t, v.toStr = .ok t

/-- The body of a response that is not 2xx can be read as the handlers read it: it is
JSON, it is a value with properties, and its `message` has a text, which is not the
connectivity text. -/
def ErrorBodyOk (r : Response) : Prop :=
  ∃ data m t, r.json = .ok data ∧ data.getProp "message" = .ok m ∧ m.toStr = .ok t
    ∧ t ≠ "Failed to connect to server"

/-- The Authorization header can be built: the token has a text. -/
def HeaderReady (s : State) : Prop := HasText s.token

/-- The request of `handleSaveProfile` can be built, so that it is made: the session user
has properties and the token has a text. -/
def SaveReady (s : State) : Prop := s.currentUser.nullish = false ∧ HasText s.token

/-- The request for the profile of the session user can be built, so that it is made: the
session user has properties, its `user_id` has the text `idText`, and the token has the
text `tokenText`. -/
def ProfileRequest (s : State) (idText tokenText : String) : Prop :=
  ∃ userId, s.currentUser.getProp "user_id" = .ok userId ∧ userId.toStr = .ok idText
    ∧ s.token.toStr = .ok tokenText

/-- The value is a user record as the listing shows it: it has properties, and each of the
five it shows has a text. -/
def UserRecord (u : JsVal) : Prop :=
  u.nullish = false
  ∧ ∀ k ∈ ["username", "full_name", "email", "bio", "created_at"],
      ∀ v, u.getProp k = .ok v → HasText v

/-- A row of the users table: its cells hold, in this order, the username in bold after
`@`, the full name, the email, the bio and the joining date. -/
def tableRow (username fullName email bio joined : String) : String :=
  "\n                                <tr>\n                                    <td><strong>@"
  ++ username ++ "</strong></td>\n                                    <td>"
  ++ fullName ++ "</td>\n                                    <td>"
  ++ email ++ "</td>\n                                    <td style=\"max-width: 200px; overflow: hidden; text-overflow: ellipsis; white-space: nowrap;\">"
  ++ bio ++ "</td>\n                                    <td>"
  ++ joined ++ "</td>\n                                </tr>"

/-- The text is the row of the user: the table row of the texts of its `username`,
`full_name`, `email`, of its `bio` or a dash when it has none, and of the date of its
`created_at`. -/
def IsRowOf (B : Browser) (u : JsVal) (row : String) : Prop :=
  ∃ username fullName email bio createdAt a b c d,
    u.getProp "username" = .ok username ∧ username.toStr = .ok a
    ∧ u.getProp "full_name" = .ok fullName ∧ fullName.toStr = .ok b
    ∧ u.getProp "email" = .ok email ∧ email.toStr = .ok c
    ∧ u.getProp "bio" = .ok bio ∧ (bio.orElse (.str "-")).toStr = .ok d
    ∧ u.getProp "created_at" = .ok createdAt
    ∧ row = tableRow a b c d (B.toLocaleDateString createdAt)

/-- The 2xx response of an exchange made by `loadProfile`, if it is one. -/
def okProfileResponseOf (x : Exchange) : Option Response :=
  if x.issuer = "loadProfile" then
    match x.result with
    | .response r => if r.ok then some r else none
    | .networkError _ => none
  else none

/-- The most recent 2xx response to a profile GET made by `loadProfile`, whatever its
body. -/
def lastOkProfileResponse (log : List Exchange) : Option Response :=
  (log.reverse.filterMap okProfileResponseOf).head?

/-- The first text occurs inside the second. -/
def Contains (needle hay : String) : Prop := needle.toList <:+: hay.toList

instance (needle hay : String) : Decidable (Contains needle hay) :=
  inferInstanceAs (Decidable (needle.toList <:+: hay.toList))

/-! ## Example data -/

/-- The escape of one character inside a JSON string (QuoteJSONString). -/
def jsonEscape (c : Char) : String :=
  let n := c.toNat
  if n = 34 then "\\\""
  else if n = 92 then "\\\\"
  else if n = 8 then "\\b"
  else if n = 12 then "\\f"
  else if n = 10 then "\\n"
  else if n = 13 then "\\r"
  else if n = 9 then "\\t"
  else if n < 32 then
    "\\u00" ++ String.singleton (Nat.digitChar (n / 16)) ++ String.singleton (Nat.digitChar (n % 16))
  else String.singleton c

/-- A string as JSON text. -/
def jsonQuote (s : String) : String :=
  "\"" ++ String.join (s.toList.map jsonEscape) ++ "\""

/-- The separator-joined text of the members of an array or object. -/
def joinWith (sep : String) : List String → String
  | [] => ""
  | [x] => x
  | x :: y :: rest => x ++ sep ++ joinWith sep (y :: rest)

/-- The brackets around the members, laid out as `JSON.stringify` does for a gap. -/
def jsonWrap (gap indent opening closing : String) (members : List String) : String :=
  match members with
  | [] => opening ++ closing
  | _ =>
    if gap = "" then opening ++ joinWith "," members ++ closing
    else
      opening ++ "\n" ++ (indent ++ gap) ++ joinWith (",\n" ++ (indent ++ gap)) members
        ++ "\n" ++ indent ++ closing

mutual
/-- The text `JSON.stringify` gives for a value at an indentation, `none` where it
gives `undefined`. -/
def jsonText (gap indent : String) : JsVal → Option String
  | .undefined => none
  | .fn _ => none
  | .null => some "null"
  | .bool true => some "true"
  | .bool false => some "false"
  | .num _ text => some text
  | .str s => some (jsonQuote s)
  | .arr items => some (jsonWrap gap indent "[" "]" (jsonItems gap (indent ++ gap) items))
  | .obj fields =>
    some (jsonWrap gap indent "\x7b" "\x7d" (jsonMembers gap (indent ++ gap) fields))
termination_by structural v => v
/-- The texts of the elements of an array: `null` stands for what has no text. -/
def jsonItems (gap indent : String) : List JsVal → List String
  | [] => []
  | v :: rest =>
    (match jsonText gap indent v with
      | some t => t
      | none => "null") :: jsonItems gap indent rest
termination_by structural l => l
/-- The texts of the members of an object: a property without text is left out. -/
def jsonMembers (gap indent : String) : List (String × JsVal) → List String
  | [] => []
  | kv :: rest =>
    match jsonProperty gap indent kv with
    | some t => t :: jsonMembers gap indent rest
    | none => jsonMembers gap indent rest
termination_by structural l => l
/-- The text of one property of an object. -/
def jsonProperty (gap indent : String) : String × JsVal → Option String
  | (k, v) =>
    match jsonText gap indent v with
    | some t => some (jsonQuote k ++ (if gap = "" then ":" else ": ") ++ t)
    | none => none
termination_by structural kv => kv
end

/-- The JSON text of the payload of the example token for user `alice`. -/
def alicePayloadText : String := "\x7b\"sub\":\"u1\",\"username\":\"alice\"\x7d"

/-- The first segment of the example tokens: base64url of `{"alg":"HS256","typ":"JWT"}`. -/
def jwtHeader : String := "eyJhbGciOiJIUzI1NiIsInR5cCI6IkpXVCJ9"

/-- The third segment of the example tokens, which the script never reads. -/
def jwtSignature : String := "c2lnbmF0dXJl"

/-- The second segment of the token of `alice`: base64url of `alicePayloadText`. -/
def alicePayloadSegment : String := "eyJzdWIiOiJ1MSIsInVzZXJuYW1lIjoiYWxpY2UifQ"

/-- The token of `alice`. -/
def aliceToken : String := jwtHeader ++ "." ++ alicePayloadSegment ++ "." ++ jwtSignature

/-- A browser for the worked examples. `JSON.stringify` is the real one on every value
that has a JSON text. `JSON.parse` is the real one on the two texts the examples parse,
`alicePayloadText` and `null`, and on no other text. Dates are those of a value that is
no date ("Invalid Date"), which is all the examples contain. -/
def exampleBrowser : Browser where
  jsonParse := fun t =>
    if t = alicePayloadText then some (.obj [("sub", .str "u1"), ("username", .str "alice")])
    else if t = "null" then some .null
    else none
  jsonStringify := fun v => (jsonText "" "" v).getD "undefined"
  jsonStringifyPretty := fun v => (jsonText "  " "" v).getD "undefined"
  toLocaleDateString := fun _ => "Invalid Date"
  toPrimitiveErrorMessage := "Cannot convert object to primitive value"

/-- A freshly loaded page without a stored session: the login card is shown, the
dashboard is hidden, every input is empty. -/
def emptySession : State where
  token := .null
  currentUser := .null
  userProfile := .null
  storage := fun _ => none
  loginCardHidden := false
  registerCardHidden := true
  authSectionHidden := false
  dashboardSectionHidden := true
  userInfoHidden := true
  profileFormCardHidden := true
  editModalActive := false
  deleteModalActive := false
  gatewayStatusOffline := false
  authStatusOffline := false
  userStatusOffline := false
  regUsername := ""
  regEmail := ""
  regPassword := ""
  loginUsername := ""
  loginPassword := ""
  profileEmail := ""
  profileFullName := ""
  profileBio := ""
  editFullName := ""
  editBio := ""
  apiEndpoint := "GET /api/users"
  userBadge := ""
  profileFormTitle := ""
  profileContent := ""
  usersContent := ""
  apiResponse := ""
  alerts := []
  log := []

/-- The session of user `alice` with identifier `u1`, dashboard open. -/
def aliceSession : State :=
  { emptySession with
    token := .str aliceToken
    currentUser := .obj [("user_id", .str "u1"), ("username", .str "alice")]
    storage := fun k =>
      if k = "token" then some aliceToken
      else if k = "currentUser" then some "\x7b\"user_id\":\"u1\",\"username\":\"alice\"\x7d"
      else none
    authSectionHidden := true
    dashboardSectionHidden := false
    userInfoHidden := false
    userBadge := "👤 alice" }

/-- The response `404 Not Found` with body `{"message": "User not found"}`. -/
def notFound : Response := ⟨404, "Not Found", .ok (.obj [("message", .str "User not found")])⟩

/-- The response `204 No Content`, whose empty body is not JSON. -/
def noContent : Response := ⟨204, "No Content", .error "Unexpected end of JSON input"⟩

/-- The session of `alice` holding a loaded profile. -/
def aliceWithProfile : State :=
  { aliceSession with
    userProfile := .obj [("user_id", .str "u1"), ("username", .str "alice"),
      ("email", .str "alice@example.org"), ("full_name", .str "Alice")] }

/-- The error alert of the users panel with the connectivity text. -/
def usersConnectError : String :=
  "<div class=\"alert alert-error\">Failed to connect to server</div>"

/-- The response `200 OK` with the given JSON body. -/
def okJson (body : JsVal) : Response := ⟨200, "OK", .ok body⟩

/-- Two users as the gateway lists them. -/
def twoUsers : List JsVal :=
  [.obj [("username", .str "alice"), ("full_name", .str "Alice"), ("email", .str "a@example.org")],
   .obj [("username", .str "bob"), ("full_name", .str "Bob"), ("email", .str "b@example.org"),
     ("bio", .str "hi")]]

/-- A profile as the gateway returns it. -/
def aliceProfile : JsVal :=
  .obj [("user_id", .str "u1"), ("username", .str "alice"), ("email", .str "alice@example.org"),
    ("full_name", .str "Alice")]

/-- A visit: `alice` logs in and her profile loads, a reload fails, the listing is opened,
the profile is deleted, then created again and loaded. -/
def aliceVisit : List Event :=
  [.type .loginUsername "alice", .type .loginPassword "secret",
   .handleLogin (.response (okJson (.obj [("token",
      .str aliceToken)]))) (.response (okJson aliceProfile)),
   .loadProfile (.networkError "Failed to fetch"),
   .loadUsers (.response (okJson (.arr twoUsers))),
   .confirmDelete (.response noContent),
   .handleSaveProfile (.response (okJson .null)) (.response (okJson aliceProfile))]

/-- The register card open and filled in for `alice`. -/
def registerView : State :=
  { emptySession with
    loginCardHidden := true
    registerCardHidden := false
    regUsername := "alice"
    regEmail := "alice@example.org"
    regPassword := "secret" }

/-- The response `201 Created` with an empty body, which is not JSON. -/
def createdNoBody : Response := ⟨201, "Created", .error "Unexpected end of JSON input"⟩

/-- The response `201 Created` with a JSON body. -/
def createdJson : Response :=
  ⟨201, "Created", .ok (.obj [("message", .str "User registered successfully")])⟩

/-- The response `400 Bad Request` with body `{"message": ""}`. -/
def badRequestEmptyMessage : Response := ⟨400, "Bad Request", .ok (.obj [("message", .str "")])⟩

/-- The response `409 Conflict` with body `{"message": "Username already exists"}`. -/
def conflict : Response :=
  ⟨409, "Conflict", .ok (.obj [("message", .str "Username already exists")])⟩

/-- The response `500 Internal Server Error` with an HTML body, which is not JSON. -/
def serverErrorHtml : Response :=
  ⟨500, "Internal Server Error", .error "Unexpected token '<', \"<!DOCTYPE \"... is not valid JSON"⟩

/-- The response `200 OK` to a login, carrying the token of `alice`. -/
def loginOk : Response :=
  okJson (.obj [("token", .str aliceToken)])

/-- The response `200 OK` whose body is not JSON. -/
def okNotJson : Response := ⟨200, "OK", .error "Unexpected token '<', \"<html>\"... is not valid JSON"⟩

/-- Two loads of the profile: the first is answered 200 with the profile of `alice`, the
second 200 with a body that is not JSON. -/
def staleReads : List Event :=
  [.loadProfile (.response (okJson aliceProfile)), .loadProfile (.response okNotJson)]

/-- The JSON text of a token payload with claims `sub = "u1"` and `username = "ab?"`. -/
def questionPayloadText : String := "\x7b\"sub\":\"u1\",\"username\":\"ab?\"\x7d"

/-- The second segment of the token for `questionPayloadText`: its base64url encoding,
in which the final `?"}` gives the character `_`. -/
def questionPayloadSegment : String := "eyJzdWIiOiJ1MSIsInVzZXJuYW1lIjoiYWI_In0"

/-- A well-formed token whose payload is `questionPayloadText`. -/
def questionToken : String := jwtHeader ++ "." ++ questionPayloadSegment ++ "." ++ jwtSignature

/-- The response `200 OK` to a login, carrying `questionToken`. -/
def loginOkQuestion : Response := okJson (.obj [("token", .str questionToken)])

/-- The response `200 OK` to a login whose token is not a JWT. -/
def loginOkGarbage : Response := okJson (.obj [("token", .str "garbage")])

/-- The response `200 OK` to a login whose body has no token. -/
def loginOkNoToken : Response := okJson (.obj [])


/-! ## Helper lemmas -/

theorem getProp_of_not_nullish (v : JsVal) (k : String) (h : v.nullish = false) :
    ∃ x, v.getProp k = .ok x := by
  cases v <;> simp [JsVal.nullish] at h <;> simp [JsVal.getProp] <;>
    (repeat' split) <;> exact ⟨_, rfl⟩

theorem getProp_obj (fields : List (String × JsVal)) (k : String) :
    (JsVal.obj fields).getProp k = .ok (JsVal.lookup k fields) := rfl

theorem toStr_str (t : String) : (JsVal.str t).toStr = .ok t := rfl

/-! ## Logout -/

/-- C2: from every state, `logout` removes the stored `token` and `currentUser`, sets the
three module variables to `null`, and shows the unauthenticated view (auth section
shown, dashboard and user info hidden). -/
theorem logout_clears_session (s : State) :
    (logout.exec s).storage "token" = none
    ∧ (logout.exec s).storage "currentUser" = none
    ∧ (logout.exec s).token = .null
    ∧ (logout.exec s).currentUser = .null
    ∧ (logout.exec s).userProfile = .null
    ∧ (logout.exec s).authSectionHidden = false
    ∧ (logout.exec s).dashboardSectionHidden = true
    ∧ (logout.exec s).userInfoHidden = true := by
  simp [logout, Js.exec, bind, Js.andThen, Js.modify, Js.lift, removeItem, showAuth, showAlert,
    toStr_str]

/-! ## Profile load and delete -/

theorem loadProfile_not_ok (B : Browser) (s : State) (r : Response) (h : r.ok = false) :
    ((loadProfile B (.response r)) s).2.profileContent = noProfileHtml
    ∧ ∀ e, { ((loadProfile B (.response r)) s).2 with log := [] }
          = { ((loadProfile B (.networkError e)) s).2 with log := [] }
        ∧ ((loadProfile B (.response r)) s).2.log.map Exchange.request
          = ((loadProfile B (.networkError e)) s).2.log.map Exchange.request
        ∧ ((loadProfile B (.networkError e)) s).2.profileContent = noProfileHtml := by
  cases hu : s.currentUser.getProp "user_id" with
  | error e =>
    simp [loadProfile, Js.tryCatch, bind, Js.andThen, Js.get, Js.lift, fetch,
      renderNoProfile, Js.modify, hu]
  | ok uid =>
    cases hi : uid.toStr with
    | error e =>
      simp [loadProfile, Js.tryCatch, bind, Js.andThen, Js.get, Js.lift, fetch,
        renderNoProfile, Js.modify, hu, hi]
    | ok idText =>
      cases ht : s.token.toStr <;>
        simp [loadProfile, Js.tryCatch, bind, Js.andThen, Js.get, Js.lift, fetch,
          renderNoProfile, Js.modify, hu, hi, ht, h]

set_option maxRecDepth 4000 in
/-- C5: from every state, `loadProfile` with a response that is not 2xx and `loadProfile`
with a `fetch` that throws leave the same script and page state (they differ only in the
result recorded for the one request, which is the same request), and in both the profile
view is the empty-profile markup, which reads "No profile created yet". -/
theorem loadProfile_failure_same_state (B : Browser) (s : State) (r : Response) (e : String)
    (h : r.ok = false) :
    ((loadProfile B (.response r)).exec s).forgetLog
        = ((loadProfile B (.networkError e)).exec s).forgetLog
    ∧ ((loadProfile B (.response r)).exec s).log.map Exchange.request
        = ((loadProfile B (.networkError e)).exec s).log.map Exchange.request
    ∧ ((loadProfile B (.response r)).exec s).profileContent = noProfileHtml
    ∧ ((loadProfile B (.networkError e)).exec s).profileContent = noProfileHtml
    ∧ Contains "No profile created yet" noProfileHtml := by
  obtain ⟨h1, h2⟩ := loadProfile_not_ok B s r h
  obtain ⟨h3, h4, h5⟩ := h2 e
  exact ⟨h3, h4, h1, h5, by decide⟩

/-- Witness of C5: the session of `alice`, a 404 against a failed `fetch`. -/
theorem loadProfile_failure_same_state_witness :
    notFound.ok = false
    ∧ ((loadProfile exampleBrowser (.response notFound)).exec aliceSession).forgetLog
        = ((loadProfile exampleBrowser (.networkError "Failed to fetch")).exec aliceSession).forgetLog
    ∧ ((loadProfile exampleBrowser (.response notFound)).exec aliceSession).profileContent
        = noProfileHtml :=
  have h := loadProfile_failure_same_state exampleBrowser aliceSession notFound
    "Failed to fetch" rfl
  ⟨rfl, h.1, h.2.2.1⟩

set_option maxRecDepth 4000 in
/-- C6: when the request of `confirmDelete` can be built, so that it is made, and its
response is 2xx, the final state has `userProfile = null` and the empty-profile markup,
which reads "No profile created yet" and offers to create a profile; the notice is the
success one and the delete dialog is closed; and the log has grown by exactly one
exchange, the DELETE of the profile of the session user: nothing is read afterwards. -/
theorem confirmDelete_success_no_read (s : State) (r : Response) (idText tokenText : String)
    (hs : ProfileRequest s idText tokenText) (h : r.ok = true) :
    ((confirmDelete (.response r)).exec s).userProfile = .null
    ∧ ((confirmDelete (.response r)).exec s).profileContent = noProfileHtml
    ∧ Contains "No profile created yet" noProfileHtml
    ∧ Contains "Create Profile" noProfileHtml
    ∧ ((confirmDelete (.response r)).exec s).alerts
        = s.alerts ++ [notice "success" "Profile deleted successfully!"]
    ∧ ((confirmDelete (.response r)).exec s).deleteModalActive = false
    ∧ ((confirmDelete (.response r)).exec s).log
        = s.log ++ [⟨"confirmDelete",
            ⟨"DELETE", "http://localhost:3002/api/users/" ++ idText,
              [("Authorization", "Bearer " ++ tokenText)], none⟩, .response r⟩] := by
  obtain ⟨uid, hu, hi, ht⟩ := hs
  refine ⟨?_, ?_, by decide, by decide, ?_, ?_, ?_⟩ <;>
  simp [confirmDelete, Js.exec, Js.tryCatch, bind, Js.andThen, Js.get, Js.lift, fetch,
    renderNoProfile, Js.modify, showAlert, closeDeleteModal, h, hu, hi, ht, toStr_str, notice,
    GATEWAY_URL]

/-- Witness of C6: the session of `alice` with a loaded profile and a 204. -/
theorem confirmDelete_success_no_read_witness :
    ProfileRequest aliceWithProfile "u1" aliceToken ∧ noContent.ok = true
    ∧ ((confirmDelete (.response noContent)).exec aliceWithProfile).userProfile = .null
    ∧ ((confirmDelete (.response noContent)).exec aliceWithProfile).profileContent
        = noProfileHtml
    ∧ ((confirmDelete (.response noContent)).exec aliceWithProfile).log
        = [⟨"confirmDelete", ⟨"DELETE", "http://localhost:3002/api/users/u1",
            [("Authorization", "Bearer " ++ aliceToken)], none⟩, .response noContent⟩] :=
  have hs : ProfileRequest aliceWithProfile "u1" aliceToken := ⟨.str "u1", rfl, rfl, rfl⟩
  have h := confirmDelete_success_no_read aliceWithProfile noContent "u1" aliceToken hs rfl
  ⟨hs, rfl, h.1, h.2.1, h.2.2.2.2.2.2⟩

/-! ## User listing -/

theorem orElse_hasText (v : JsVal) (fallback : String) (h : HasText v) :
    HasText (v.orElse (.str fallback)) := by
  unfold JsVal.orElse
  split
  · exact h
  · exact ⟨fallback, rfl⟩

theorem userRow_of_record (B : Browser) (u : JsVal) (h : UserRecord u) :
    ∃ row, userRow B u = .ok row ∧ IsRowOf B u row := by
  obtain ⟨hn, hp⟩ := h
  obtain ⟨a, ha⟩ := getProp_of_not_nullish u "username" hn
  obtain ⟨b, hb⟩ := getProp_of_not_nullish u "full_name" hn
  obtain ⟨c, hc⟩ := getProp_of_not_nullish u "email" hn
  obtain ⟨d, hd⟩ := getProp_of_not_nullish u "bio" hn
  obtain ⟨t, ht⟩ := getProp_of_not_nullish u "created_at" hn
  obtain ⟨a1, hat⟩ := hp "username" (by simp) a ha
  obtain ⟨b1, hbt⟩ := hp "full_name" (by simp) b hb
  obtain ⟨c1, hct⟩ := hp "email" (by simp) c hc
  obtain ⟨d1, hdt⟩ := orElse_hasText d "-" (hp "bio" (by simp) d hd)
  obtain ⟨t1, htt⟩ := hp "created_at" (by simp) t ht
  refine ⟨tableRow a1 b1 c1 d1 (B.toLocaleDateString t), ?_,
    a, b, c, d, t, a1, b1, c1, d1, ha, hat, hb, hbt, hc, hct, hd, hdt, ht, rfl⟩
  simp [userRow, ha, hb, hc, hd, ht, hat, hbt, hct, hdt, htt, dateText, bind, Except.bind, pure,
    Except.pure, userRowHtml, tableRow]

theorem userRows_of_records (B : Browser) (users : List JsVal)
    (h : ∀ u ∈ users, UserRecord u) :
    ∃ rows, userRows B users = .ok rows ∧ List.Forall₂ (IsRowOf B) users rows := by
  induction users with
  | nil => exact ⟨[], rfl, List.Forall₂.nil⟩
  | cons u rest ih =>
    obtain ⟨rows, hrows, hall⟩ := ih (fun v hv => h v (List.mem_cons_of_mem _ hv))
    obtain ⟨row, hrow, his⟩ := userRow_of_record B u (h u (List.mem_cons_self _ _))
    exact ⟨row :: rows, by simp [userRows, hrow, hrows], List.Forall₂.cons his hall⟩

set_option maxRecDepth 8000 in
/-- C7, as amended: when `loadUsers` can build its request and receives a 2xx response,
an empty array gives the markup that reads "No users found" and holds no table, and a
non-empty array of user records (values with properties whose five displayed properties
have a text) gives the table markup, from `<table` to `</table>`, with one row per user
between `<tbody>` and `</tbody>`, each the table row of the user at the same position. -/
theorem loadUsers_renders_listing (B : Browser) (s : State) (r : Response) (users : List JsVal)
    (hdr : HeaderReady s) (hok : r.ok = true) (hbody : r.json = .ok (.arr users))
    (husers : ∀ u ∈ users, UserRecord u) :
    (users = [] →
      ((loadUsers B (.response r)).exec s).usersContent = noUsersHtml
      ∧ Contains "No users found" noUsersHtml ∧ ¬ Contains "<table" noUsersHtml)
    ∧ (users ≠ [] →
      ∃ rows, List.Forall₂ (IsRowOf B) users rows
        ∧ ((loadUsers B (.response r)).exec s).usersContent
            = usersTableOpen ++ String.join rows ++ usersTableClose
        ∧ Contains "<table" usersTableOpen ∧ Contains "<tbody>" usersTableOpen
        ∧ Contains "</tbody>" usersTableClose ∧ Contains "</table>" usersTableClose) := by
  obtain ⟨tokenText, ht⟩ := hdr
  constructor
  · intro hnil
    subst hnil
    refine ⟨?_, by decide, by decide⟩
    simp [loadUsers, Js.exec, Js.tryCatch, bind, Js.andThen, Js.get, Js.lift, fetch,
      Js.modify, hok, hbody, ht, JsVal.getProp, JsVal.ofNat, isZero]
  · intro hne
    obtain ⟨rows, hrows, hall⟩ := userRows_of_records B users husers
    refine ⟨rows, hall, ?_, by decide, by decide, by decide, by decide⟩
    have hlen : isZero (JsVal.ofNat users.length) = false := by
      cases users with
      | nil => exact absurd rfl hne
      | cons u rest => simp [isZero, JsVal.ofNat]
    simp [loadUsers, Js.exec, Js.tryCatch, bind, Js.andThen, Js.get, Js.lift, fetch,
      Js.modify, hok, hbody, ht, JsVal.getProp, hlen, jsMapRows, hrows]

/-- Witness of C7 as amended: the empty list and a list of two users, in the session of
`alice`. -/
theorem loadUsers_renders_listing_witness :
    HeaderReady aliceSession ∧ (okJson (.arr [])).ok = true
    ∧ (∀ u ∈ twoUsers, UserRecord u)
    ∧ ((loadUsers exampleBrowser (.response (okJson (.arr [])))).exec aliceSession).usersContent
        = noUsersHtml
    ∧ ∃ rows, rows.length = 2
        ∧ ((loadUsers exampleBrowser (.response (okJson (.arr twoUsers)))).exec
            aliceSession).usersContent
          = usersTableOpen ++ String.join rows ++ usersTableClose :=
  have hdr : HeaderReady aliceSession := ⟨aliceToken, rfl⟩
  have hrec : ∀ u ∈ twoUsers, UserRecord u := by
    intro u hu
    simp only [twoUsers, List.mem_cons, List.mem_singleton, List.not_mem_nil, or_false] at hu
    rcases hu with rfl | rfl <;>
      refine ⟨rfl, ?_⟩ <;> intro k hk v hv <;>
      simp only [List.mem_cons, List.mem_singleton, List.not_mem_nil, or_false] at hk <;>
      rcases hk with rfl | rfl | rfl | rfl | rfl <;>
      cases hv <;> exact ⟨_, rfl⟩
  have h0 := loadUsers_renders_listing exampleBrowser aliceSession (okJson (.arr [])) [] hdr
    rfl rfl (by simp)
  have h2 := loadUsers_renders_listing exampleBrowser aliceSession (okJson (.arr twoUsers))
    twoUsers hdr rfl rfl hrec
  ⟨hdr, rfl, hrec, (h0.1 rfl).1,
    (h2.2 (by simp [twoUsers])).elim fun rows hr => ⟨rows, hr.1.length_eq.symm, hr.2.1⟩⟩

set_option maxRecDepth 8000 in
/-- C7 as stated fails: for the non-empty array `[null]` in a 200 response, line 304
throws on the first element and the catch block writes the connectivity error; the
content is that alert and holds no table. -/
theorem loadUsers_null_element :
    (okJson (.arr [.null])).ok = true
    ∧ ((loadUsers exampleBrowser (.response (okJson (.arr [.null])))).exec
        aliceSession).usersContent = usersConnectError
    ∧ ¬ Contains "<table" usersConnectError
    ∧ ¬ Contains "<tr" usersConnectError :=
  ⟨rfl, rfl, by decide, by decide⟩

/-! ## The profile cache -/

theorem lastProfileRead_append (log : List Exchange) (x : Exchange) :
    lastProfileRead (log ++ [x])
      = match profileReadOf x with
        | some b => some b
        | none => lastProfileRead log := by
  unfold lastProfileRead
  rw [List.reverse_append]
  cases h : profileReadOf x <;> simp [List.filterMap_cons, h]

/-- What `loadProfile` changes: only the log, the cache, the profile panel and the form
card; the log stays or grows by the one exchange, and the cache changes only to the JSON
body of a 2xx response. -/
theorem loadProfile_shape (B : Browser) (res : FetchResult) (s : State) :
    ∃ log cache panel hidden,
      ((loadProfile B res) s).2
        = { s with log := log, userProfile := cache, profileContent := panel,
                   profileFormCardHidden := hidden }
      ∧ ((log = s.log ∧ cache = s.userProfile)
        ∨ ∃ req, log = s.log ++ [⟨"loadProfile", req, res⟩]
            ∧ ((cache = s.userProfile ∧ profileReadOf ⟨"loadProfile", req, res⟩ = none)
              ∨ profileReadOf ⟨"loadProfile", req, res⟩ = some cache)) := by
  cases hu : s.currentUser.getProp "user_id" with
  | error e =>
    exact ⟨s.log, s.userProfile, noProfileHtml, s.profileFormCardHidden,
      by simp [loadProfile, Js.tryCatch, bind, Js.andThen, Js.get, Js.lift, fetch,
        renderNoProfile, Js.modify, hu], Or.inl ⟨rfl, rfl⟩⟩
  | ok uid =>
    cases hi : uid.toStr with
    | error e =>
      exact ⟨s.log, s.userProfile, noProfileHtml, s.profileFormCardHidden,
        by simp [loadProfile, Js.tryCatch, bind, Js.andThen, Js.get, Js.lift, fetch,
          renderNoProfile, Js.modify, hu, hi], Or.inl ⟨rfl, rfl⟩⟩
    | ok idText =>
      cases ht : s.token.toStr with
      | error e =>
        exact ⟨s.log, s.userProfile, noProfileHtml, s.profileFormCardHidden,
          by simp [loadProfile, Js.tryCatch, bind, Js.andThen, Js.get, Js.lift, fetch,
            renderNoProfile, Js.modify, hu, hi, ht], Or.inl ⟨rfl, rfl⟩⟩
      | ok tokenText =>
        let req : Request := ⟨"GET", GATEWAY_URL ++ "/api/users/" ++ idText,
          [("Authorization", "Bearer " ++ tokenText)], none⟩
        cases res with
        | networkError e =>
          exact ⟨s.log ++ [⟨"loadProfile", req, .networkError e⟩], s.userProfile, noProfileHtml,
            s.profileFormCardHidden,
            by simp [loadProfile, Js.tryCatch, bind, Js.andThen, Js.get, Js.lift, fetch,
              renderNoProfile, Js.modify, hu, hi, ht, req],
            Or.inr ⟨req, rfl, Or.inl ⟨rfl, by simp [profileReadOf]⟩⟩⟩
        | response r =>
          cases hok : r.ok with
          | false =>
            exact ⟨s.log ++ [⟨"loadProfile", req, .response r⟩], s.userProfile, noProfileHtml,
              s.profileFormCardHidden,
              by simp [loadProfile, Js.tryCatch, bind, Js.andThen, Js.get, Js.lift, fetch,
                renderNoProfile, Js.modify, hu, hi, ht, hok, req],
              Or.inr ⟨req, rfl, Or.inl ⟨rfl, by simp [profileReadOf, hok]⟩⟩⟩
          | true =>
            cases hj : r.json with
            | error e =>
              exact ⟨s.log ++ [⟨"loadProfile", req, .response r⟩], s.userProfile, noProfileHtml,
                s.profileFormCardHidden,
                by simp [loadProfile, Js.tryCatch, bind, Js.andThen, Js.get, Js.lift, fetch,
                  renderNoProfile, Js.modify, hu, hi, ht, hok, hj, req],
                Or.inr ⟨req, rfl, Or.inl ⟨rfl, by simp [profileReadOf, hok, hj]⟩⟩⟩
            | ok body =>
              cases hm : profileMarkup B body with
              | error e =>
                exact ⟨s.log ++ [⟨"loadProfile", req, .response r⟩], body, noProfileHtml,
                  s.profileFormCardHidden,
                  by simp [loadProfile, Js.tryCatch, bind, Js.andThen, Js.get, Js.lift, fetch,
                    renderNoProfile, renderProfile, Js.modify, hu, hi, ht, hok, hj, hm, req],
                  Or.inr ⟨req, rfl, Or.inr (by simp [profileReadOf, hok, hj])⟩⟩
              | ok html =>
                exact ⟨s.log ++ [⟨"loadProfile", req, .response r⟩], body, html, true,
                  by simp [loadProfile, Js.tryCatch, bind, Js.andThen, Js.get, Js.lift, fetch,
                    renderNoProfile, renderProfile, Js.modify, hu, hi, ht, hok, hj, hm, req],
                  Or.inr ⟨req, rfl, Or.inr (by simp [profileReadOf, hok, hj])⟩⟩

theorem loadProfile_alerts (B : Browser) (res : FetchResult) (s : State) :
    ((loadProfile B res) s).2.alerts = s.alerts := by
  obtain ⟨_, _, _, _, h, _⟩ := loadProfile_shape B res s
  rw [h]

theorem loadProfile_session (B : Browser) (res : FetchResult) :
    (∀ s, ((loadProfile B res) s).2.token = s.token)
    ∧ (∀ s, ((loadProfile B res) s).2.currentUser = s.currentUser)
    ∧ (∀ s, ((loadProfile B res) s).2.storage = s.storage) := by
  refine ⟨fun s => ?_, fun s => ?_, fun s => ?_⟩ <;>
    obtain ⟨_, _, _, _, h, _⟩ := loadProfile_shape B res s <;> rw [h]

theorem loadProfile_inv (B : Browser) (res : FetchResult) (s : State) (h : CacheInv s) :
    CacheInv ((loadProfile B res).exec s) := by
  obtain ⟨log, cache, panel, hidden, hs, hc⟩ := loadProfile_shape B res s
  unfold CacheInv at *
  unfold Js.exec
  rw [hs]
  rcases hc with ⟨hl, hu⟩ | ⟨req, hl, ⟨hu, hn⟩ | hsome⟩
  · subst hl hu
    exact h
  · subst hl hu
    simpa [lastProfileRead_append, hn] using h
  · subst hl
    right
    simp [lastProfileRead_append, hsome]

theorem preserves_bind {α β : Type} (m : Js α) (f : α → Js β)
    (hm : Preserves m) (hf : ∀ a, Preserves (f a)) : Preserves (m >>= f) := by
  intro s hs
  have h1 := hm s hs
  show CacheInv (Js.andThen m f s).2
  unfold Js.andThen
  rcases hms : m s with ⟨_ | a, s1⟩
  · simpa [hms] using h1
  · have := hf a s1 (by simpa [hms] using h1)
    simpa [hms] using this

theorem preserves_tryCatch (body : Js Unit) (handler : String → Js Unit)
    (hb : Preserves body) (hh : ∀ e, Preserves (handler e)) :
    Preserves (Js.tryCatch body handler) := by
  intro s hs
  have h1 := hb s hs
  unfold Js.tryCatch
  rcases hms : body s with ⟨e | a, s1⟩
  · have := hh e s1 (by simpa [hms] using h1)
    simpa [hms] using this
  · simpa [hms] using h1

theorem preserves_detach (m : Js Unit) (hm : Preserves m) : Preserves (Js.detach m) :=
  fun s hs => hm s hs

theorem preserves_lift {α : Type} (x : Except String α) : Preserves (Js.lift x) :=
  fun _ hs => hs

theorem preserves_get : Preserves Js.get := fun _ hs => hs

theorem preserves_pure {α : Type} (a : α) : Preserves (pure a : Js α) := fun _ hs => hs

theorem preserves_modify (f : State → State) (hf : ∀ s, CacheInv s → CacheInv (f s)) :
    Preserves (Js.modify f) := fun s hs => hf s hs

theorem preserves_ite {α : Type} (c : Prop) [Decidable c] (a b : Js α)
    (ha : Preserves a) (hb : Preserves b) : Preserves (if c then a else b) := by
  split <;> assumption

theorem preserves_fetch (issuer : String) (req : Request) (res : FetchResult)
    (h : issuer ≠ "loadProfile") : Preserves (fetch issuer req res) := by
  intro s hs
  unfold CacheInv at *
  cases res <;> simpa [fetch, lastProfileRead_append, profileReadOf, h] using hs

theorem preserves_loadProfile (B : Browser) (res : FetchResult) :
    Preserves (loadProfile B res) :=
  fun s hs => loadProfile_inv B res s hs

theorem preserves_setField (f : Field) (v : String) : Preserves (Js.modify (setField f v)) := by
  apply preserves_modify
  intro s hs
  cases f <;> simpa [setField, CacheInv] using hs

theorem preserves_handlerOf (B : Browser) (ev : Event) : Preserves (handlerOf B ev) := by
  cases ev with
  | type f v => exact preserves_setField f v
  | loadProfile res => exact preserves_loadProfile B res
  | _ =>
    simp only [handlerOf, checkServiceStatus, showLogin, showRegister, handleRegister, handleLogin,
      logout, showCreateProfile, hideProfileForm, handleSaveProfile, showEditModal, closeModal,
      handleUpdateProfile, showDeleteModal, closeDeleteModal, confirmDelete, loadUsers, testApi,
      showAlert, showDashboard, showAuth, setItem, removeItem, renderNoProfile]
    repeat' first
      | with_reducible apply preserves_bind
      | with_reducible apply preserves_tryCatch
      | with_reducible apply preserves_detach
      | with_reducible apply preserves_lift
      | with_reducible apply preserves_get
      | with_reducible apply preserves_pure
      | with_reducible apply preserves_loadProfile
      | with_reducible apply preserves_ite
      | (with_reducible apply preserves_fetch; decide)
      | (with_reducible apply preserves_modify; intro s hs; simp [CacheInv] at hs ⊢; try exact hs)
      | intro _

theorem run_inv (B : Browser) (events : List Event) (s : State) (h : CacheInv s) :
    CacheInv (run B s events) := by
  induction events generalizing s with
  | nil => exact h
  | cons ev rest ih => exact ih _ (preserves_handlerOf B ev s h)

/-- C9, as amended: in every state reached from a page whose `userProfile` is `null` (as
line 4 leaves it) by any sequence of events, `userProfile` is `null` or equals the body of
the most recent successful profile read, that is the most recent 2xx response with a JSON
body to a `fetch` made by `loadProfile`. -/
theorem profile_cache_invariant (B : Browser) (s0 : State) (events : List Event)
    (h0 : s0.userProfile = .null) :
    (run B s0 events).userProfile = .null
    ∨ lastProfileRead (run B s0 events).log = some (run B s0 events).userProfile :=
  run_inv B events s0 (Or.inl h0)

/-- Witness of C9 as amended: the visit of `alice` from a fresh page. -/
theorem profile_cache_invariant_witness :
    emptySession.userProfile = .null
    ∧ (run exampleBrowser emptySession aliceVisit).userProfile = aliceProfile
    ∧ ((run exampleBrowser emptySession aliceVisit).userProfile = .null
      ∨ lastProfileRead (run exampleBrowser emptySession aliceVisit).log
          = some (run exampleBrowser emptySession aliceVisit).userProfile) :=
  ⟨rfl, rfl, profile_cache_invariant exampleBrowser emptySession aliceVisit rfl⟩

/-- C9 as stated fails: in the session of `alice` with an empty cache, after a profile
GET answered 200 with her profile and a second one answered 200 with a body that is not
JSON, the cache still holds the first body and the panel shows the empty-profile markup,
while the most recent 2xx response to a profile GET is the second one, which has no JSON
body: the cache is neither `null` nor the JSON body of that response. -/
theorem profile_cache_stale_after_unreadable_body :
    aliceSession.userProfile = .null
    ∧ okNotJson.ok = true
    ∧ (run exampleBrowser aliceSession staleReads).userProfile = aliceProfile
    ∧ (run exampleBrowser aliceSession staleReads).profileContent = noProfileHtml
    ∧ lastOkProfileResponse (run exampleBrowser aliceSession staleReads).log = some okNotJson
    ∧ ¬ ((run exampleBrowser aliceSession staleReads).userProfile = .null
        ∨ ∃ r, lastOkProfileResponse (run exampleBrowser aliceSession staleReads).log = some r
            ∧ r.json = .ok (run exampleBrowser aliceSession staleReads).userProfile) := by
  have hu : (run exampleBrowser aliceSession staleReads).userProfile = aliceProfile := rfl
  have hl : lastOkProfileResponse (run exampleBrowser aliceSession staleReads).log
      = some okNotJson := rfl
  refine ⟨rfl, rfl, hu, rfl, hl, ?_⟩
  rw [hu, hl]
  rintro (h | ⟨r, hr, hj⟩)
  · exact JsVal.noConfusion h
  · cases hr
    exact Except.noConfusion hj

/-! ## Registration -/

/-- C10, as amended: for every submitted username, email and password and every result of
the `fetch`, `handleRegister` leaves `token`, `currentUser`, `userProfile` and
`localStorage` unchanged; and when the response is 2xx and its body is JSON, the login
card is shown, the register card is hidden and the login username field holds the
submitted username. -/
theorem handleRegister_frame_and_success (B : Browser) (s : State) (res : FetchResult) :
    (((handleRegister B res).exec s).token = s.token
      ∧ ((handleRegister B res).exec s).currentUser = s.currentUser
      ∧ ((handleRegister B res).exec s).userProfile = s.userProfile
      ∧ ((handleRegister B res).exec s).storage = s.storage)
    ∧ (∀ r data, res = .response r → r.ok = true → r.json = .ok data →
        ((handleRegister B res).exec s).loginCardHidden = false
        ∧ ((handleRegister B res).exec s).registerCardHidden = true
        ∧ ((handleRegister B res).exec s).loginUsername = s.regUsername) := by
  constructor
  · cases res with
    | networkError e =>
      simp [handleRegister, Js.exec, Js.tryCatch, bind, Js.andThen, Js.get, Js.lift, fetch,
        Js.modify, showAlert, toStr_str]
    | response r =>
      cases hj : r.json with
      | error e =>
        simp [handleRegister, Js.exec, Js.tryCatch, bind, Js.andThen, Js.get, Js.lift, fetch,
          Js.modify, showAlert, hj, toStr_str]
      | ok data =>
        cases hok : r.ok with
        | true =>
          simp [handleRegister, Js.exec, Js.tryCatch, bind, Js.andThen, Js.get, Js.lift, fetch,
            Js.modify, showAlert, showLogin, hj, hok, toStr_str]
        | false =>
          cases hm : data.getProp "message" with
          | error e =>
            simp [handleRegister, Js.exec, Js.tryCatch, bind, Js.andThen, Js.get, Js.lift,
              fetch, Js.modify, showAlert, showLogin, hj, hok, hm, toStr_str]
          | ok m =>
            cases ht : (m.orElse (.str "Registration failed")).toStr <;>
              simp [handleRegister, Js.exec, Js.tryCatch, bind, Js.andThen, Js.get, Js.lift,
                fetch, Js.modify, showAlert, showLogin, hj, hok, hm, ht, toStr_str]
  · intro r data hres hok hj
    subst hres
    simp [handleRegister, Js.exec, Js.tryCatch, bind, Js.andThen, Js.get, Js.lift, fetch,
      Js.modify, showAlert, showLogin, hj, hok, toStr_str]

/-- Witness of C10 as amended: `alice` registers and the gateway answers 201 with JSON. -/
theorem handleRegister_frame_and_success_witness :
    createdJson.ok = true
    ∧ ((handleRegister exampleBrowser (.response createdJson)).exec registerView).loginCardHidden
        = false
    ∧ ((handleRegister exampleBrowser (.response createdJson)).exec registerView).registerCardHidden
        = true
    ∧ ((handleRegister exampleBrowser (.response createdJson)).exec registerView).loginUsername
        = "alice" :=
  ⟨rfl, (handleRegister_frame_and_success exampleBrowser registerView (.response createdJson)).2
    createdJson _ rfl rfl rfl⟩

/-- C10 as stated fails: `alice` registers, the gateway answers 201 with an empty body;
line 58 throws on the body, so the login card stays hidden, the register card stays
shown, the login username field stays empty and the notice is the connectivity one. -/
theorem handleRegister_success_unreadable_body :
    createdNoBody.ok = true
    ∧ ((handleRegister exampleBrowser (.response createdNoBody)).exec registerView).loginCardHidden
        = true
    ∧ ((handleRegister exampleBrowser (.response createdNoBody)).exec
        registerView).registerCardHidden = false
    ∧ ((handleRegister exampleBrowser (.response createdNoBody)).exec registerView).loginUsername
        = ""
    ∧ ((handleRegister exampleBrowser (.response createdNoBody)).exec registerView).alerts
        = [notice "error" "Failed to connect to server"] :=
  ⟨rfl, rfl, rfl, rfl, rfl⟩

/-! ## Server messages -/

theorem orElse_str_toStr (X fallback : String) :
    ((JsVal.str X).orElse (.str fallback)).toStr
      = .ok (if X = "" then fallback else X) := by
  by_cases h : X = "" <;> simp [JsVal.orElse, JsVal.truthy, JsVal.toStr, h]

set_option maxRecDepth 4000 in
/-- C3, as amended: for every string `X`, a response that is not 2xx and whose JSON body
has `message` equal to `X` makes `handleRegister`, `handleLogin` and, when their request
can be built so that it is made, `handleSaveProfile`, `handleUpdateProfile` and
`confirmDelete` append one error notice whose markup is `<span>X</span>` when `X` is not
empty, and the markup of the fallback text of the handler when `X` is empty; `loadUsers`
writes the same text into the users panel as an inline alert and shows no notice;
`loadProfile` shows no notice and renders the empty-profile markup, which reads
"No profile created yet". -/
theorem server_message_shown (B : Browser) (s : State) (r : Response) (data : JsVal)
    (X : String) (profileRes : FetchResult)
    (hok : r.ok = false) (hj : r.json = .ok data)
    (hm : data.getProp "message" = .ok (.str X)) :
    ((handleRegister B (.response r)).exec s).alerts
        = s.alerts ++ [notice "error" (if X = "" then "Registration failed" else X)]
    ∧ ((handleLogin B (.response r) profileRes).exec s).alerts
        = s.alerts ++ [notice "error" (if X = "" then "Login failed" else X)]
    ∧ (SaveReady s →
        ((handleSaveProfile B (.response r) profileRes).exec s).alerts
          = s.alerts ++ [notice "error" (if X = "" then "Failed to create profile" else X)])
    ∧ ((∃ idText tokenText, ProfileRequest s idText tokenText) →
        ((handleUpdateProfile B (.response r) profileRes).exec s).alerts
            = s.alerts ++ [notice "error" (if X = "" then "Failed to update profile" else X)]
        ∧ ((confirmDelete (.response r)).exec s).alerts
            = s.alerts ++ [notice "error" (if X = "" then "Failed to delete profile" else X)])
    ∧ (HeaderReady s →
        ((loadUsers B (.response r)).exec s).usersContent
            = "<div class=\"alert alert-error\">"
              ++ (if X = "" then "Failed to load users" else X) ++ "</div>"
        ∧ ((loadUsers B (.response r)).exec s).alerts = s.alerts)
    ∧ ((loadProfile B (.response r)).exec s).alerts = s.alerts
    ∧ ((loadProfile B (.response r)).exec s).profileContent = noProfileHtml
    ∧ Contains "No profile created yet" noProfileHtml := by
  refine ⟨?_, ?_, ?_, ?_, ?_, ?_, ?_, by decide⟩
  · simp [handleRegister, Js.exec, Js.tryCatch, bind, Js.andThen, Js.get, Js.lift, fetch,
      Js.modify, showAlert, hj, hok, hm, orElse_str_toStr, notice]
  · simp [handleLogin, Js.exec, Js.tryCatch, bind, Js.andThen, Js.get, Js.lift, fetch,
      Js.modify, showAlert, hj, hok, hm, orElse_str_toStr, notice]
  · rintro ⟨hs, tokenText, ht⟩
    obtain ⟨uid, hu⟩ := getProp_of_not_nullish s.currentUser "user_id" hs
    obtain ⟨un, hn⟩ := getProp_of_not_nullish s.currentUser "username" hs
    simp [handleSaveProfile, Js.exec, Js.tryCatch, bind, Js.andThen, Js.get, Js.lift, fetch,
      Js.modify, showAlert, hj, hok, hm, hu, hn, ht, orElse_str_toStr, notice]
  · rintro ⟨idText, tokenText, uid, hu, hi, ht⟩
    constructor
    · simp [handleUpdateProfile, Js.exec, Js.tryCatch, bind, Js.andThen, Js.get, Js.lift, fetch,
        Js.modify, showAlert, hj, hok, hm, hu, hi, ht, orElse_str_toStr, notice]
    · simp [confirmDelete, Js.exec, Js.tryCatch, bind, Js.andThen, Js.get, Js.lift, fetch,
        Js.modify, showAlert, hj, hok, hm, hu, hi, ht, orElse_str_toStr, notice]
  · rintro ⟨tokenText, ht⟩
    constructor <;>
    simp [loadUsers, Js.exec, Js.tryCatch, bind, Js.andThen, Js.get, Js.lift, fetch,
      Js.modify, hj, hok, hm, ht, orElse_str_toStr, usersErrorHtml]
  · exact loadProfile_alerts B _ s
  · exact (loadProfile_not_ok B s r hok).1

/-- Witness of C3 as amended: a 409 with a message, in the session of `alice`. -/
theorem server_message_shown_witness :
    conflict.ok = false
    ∧ (∃ idText tokenText, ProfileRequest aliceSession idText tokenText)
    ∧ ((handleRegister exampleBrowser (.response conflict)).exec aliceSession).alerts
        = [notice "error" "Username already exists"]
    ∧ ((confirmDelete (.response conflict)).exec aliceSession).alerts
        = [notice "error" "Username already exists"] :=
  have hs : ∃ idText tokenText, ProfileRequest aliceSession idText tokenText :=
    ⟨"u1", aliceToken, .str "u1", rfl, rfl, rfl⟩
  have h := server_message_shown exampleBrowser aliceSession conflict
    (.obj [("message", .str "Username already exists")]) "Username already exists"
    (.networkError "Failed to fetch") rfl rfl rfl
  ⟨rfl, hs, h.1, (h.2.2.2.1 hs).2⟩

/-- C3 as stated fails: `loadProfile` given a 404 with body `{"message": "User not found"}`
shows no notice at all, and `handleRegister` given a 400 with body `{"message": ""}` shows
the notice "Registration failed", which is not the empty message. -/
theorem server_message_not_shown :
    notFound.ok = false
    ∧ ((loadProfile exampleBrowser (.response notFound)).exec aliceSession).alerts = []
    ∧ badRequestEmptyMessage.ok = false
    ∧ ((handleRegister exampleBrowser (.response badRequestEmptyMessage)).exec
        registerView).alerts = [notice "error" "Registration failed"] :=
  ⟨rfl, rfl, rfl, rfl⟩

/-! ## The connectivity message -/

theorem orElse_text (m : JsVal) (t fallback : String) (hm : m.toStr = .ok t)
    (ht : t ≠ "Failed to connect to server") (hf : fallback ≠ "Failed to connect to server") :
    ∃ shown, (m.orElse (.str fallback)).toStr = .ok shown
      ∧ shown ≠ "Failed to connect to server" := by
  unfold JsVal.orElse
  split
  · exact ⟨t, hm, ht⟩
  · exact ⟨fallback, rfl, hf⟩

theorem not_nullish_of_getProp (v x : JsVal) (k : String) (h : v.getProp k = .ok x) :
    v.nullish = false := by
  cases v <;> simp [JsVal.getProp] at h <;> rfl

theorem handleRegister_other_notice (B : Browser) (s : State) (r : Response)
    (h2 : r.ok = true → ∃ data, r.json = .ok data)
    (h4 : r.ok = false → ErrorBodyOk r) :
    OtherNotice s ((handleRegister B (.response r)).exec s) := by
  cases hok : r.ok with
  | false =>
    obtain ⟨data, m, t, hj, hm, ht, hne⟩ := h4 hok
    obtain ⟨shown, hs, hsn⟩ := orElse_text m t "Registration failed" ht hne (by decide)
    refine ⟨"error", shown, ?_, hsn⟩
    simp [handleRegister, Js.exec, Js.tryCatch, bind, Js.andThen, Js.get, Js.lift, fetch,
      Js.modify, showAlert, hj, hok, hm, hs, notice]
  | true =>
    obtain ⟨data, hj⟩ := h2 hok
    refine ⟨"success", "Registration successful! Please login.", ?_, by decide⟩
    simp [handleRegister, Js.exec, Js.tryCatch, bind, Js.andThen, Js.get, Js.lift, fetch,
      Js.modify, showAlert, showLogin, hj, hok, notice, toStr_str]

theorem handleLogin_other_notice (B : Browser) (s : State) (r : Response)
    (profileRes : FetchResult)
    (h2 : r.ok = true → ∃ data tok, r.json = .ok data ∧ data.getProp "token" = .ok tok
      ∧ Decodable B tok)
    (h4 : r.ok = false → ErrorBodyOk r) :
    OtherNotice s ((handleLogin B (.response r) profileRes).exec s) := by
  cases hok : r.ok with
  | false =>
    obtain ⟨data, m, t, hj, hm, ht, hne⟩ := h4 hok
    obtain ⟨shown, hs, hsn⟩ := orElse_text m t "Login failed" ht hne (by decide)
    refine ⟨"error", shown, ?_, hsn⟩
    simp [handleLogin, Js.exec, Js.tryCatch, bind, Js.andThen, Js.get, Js.lift, fetch,
      Js.modify, showAlert, hj, hok, hm, hs, notice]
  | true =>
    obtain ⟨data, tok, hj, ht, parts, segment, decoded, payload, name, badge, hsp, hseg, hat,
      hpa, hname, hbadge⟩ := h2 hok
    obtain ⟨sub, hsub⟩ := getProp_of_not_nullish payload "sub"
      (not_nullish_of_getProp payload name "username" hname)
    have htok : ∃ T, tok = .str T := by
      cases tok <;> simp [jsSplit] at hsp
      exact ⟨_, rfl⟩
    obtain ⟨T, rfl⟩ := htok
    refine ⟨"success", "Login successful!", ?_, by decide⟩
    simp [handleLogin, Js.exec, Js.tryCatch, bind, Js.andThen, Js.get, Js.lift, fetch,
      Js.modify, showAlert, hj, hok, ht, hsp, hseg, hat, hpa, hsub, hname, hbadge, setItem,
      showDashboard, getProp_obj, JsVal.lookup, Js.detach, loadProfile_alerts, notice,
      toStr_str]

theorem handleSaveProfile_other_notice (B : Browser) (s : State) (r : Response)
    (profileRes : FetchResult) (hs : SaveReady s) (h4 : r.ok = false → ErrorBodyOk r) :
    OtherNotice s ((handleSaveProfile B (.response r) profileRes).exec s) := by
  obtain ⟨hcu, tokenText, htok⟩ := hs
  obtain ⟨uid, hu⟩ := getProp_of_not_nullish s.currentUser "user_id" hcu
  obtain ⟨un, hn⟩ := getProp_of_not_nullish s.currentUser "username" hcu
  cases hok : r.ok with
  | false =>
    obtain ⟨data, m, t, hj, hm, ht, hne⟩ := h4 hok
    obtain ⟨shown, hsh, hsn⟩ := orElse_text m t "Failed to create profile" ht hne (by decide)
    refine ⟨"error", shown, ?_, hsn⟩
    simp [handleSaveProfile, Js.exec, Js.tryCatch, bind, Js.andThen, Js.get, Js.lift,
      fetch, Js.modify, showAlert, hj, hok, hm, hu, hn, htok, hsh, notice]
  | true =>
    refine ⟨"success", "Profile created successfully!", ?_, by decide⟩
    simp [handleSaveProfile, Js.exec, Js.tryCatch, bind, Js.andThen, Js.get, Js.lift,
      fetch, Js.modify, showAlert, hok, hu, hn, htok, Js.detach, loadProfile_alerts, notice,
      toStr_str]

theorem handleUpdateProfile_other_notice (B : Browser) (s : State) (r : Response)
    (profileRes : FetchResult) (hs : ∃ idText tokenText, ProfileRequest s idText tokenText)
    (h4 : r.ok = false → ErrorBodyOk r) :
    OtherNotice s ((handleUpdateProfile B (.response r) profileRes).exec s) := by
  obtain ⟨idText, tokenText, uid, hu, hi, htok⟩ := hs
  cases hok : r.ok with
  | false =>
    obtain ⟨data, m, t, hj, hm, ht, hne⟩ := h4 hok
    obtain ⟨shown, hsh, hsn⟩ := orElse_text m t "Failed to update profile" ht hne (by decide)
    refine ⟨"error", shown, ?_, hsn⟩
    simp [handleUpdateProfile, Js.exec, Js.tryCatch, bind, Js.andThen, Js.get, Js.lift,
      fetch, Js.modify, showAlert, hj, hok, hm, hu, hi, htok, hsh, notice]
  | true =>
    refine ⟨"success", "Profile updated successfully!", ?_, by decide⟩
    simp [handleUpdateProfile, Js.exec, Js.tryCatch, bind, Js.andThen, Js.get, Js.lift,
      fetch, Js.modify, showAlert, hok, hu, hi, htok, closeModal, Js.detach,
      loadProfile_alerts, notice, toStr_str]

theorem confirmDelete_other_notice (s : State) (r : Response)
    (hs : ∃ idText tokenText, ProfileRequest s idText tokenText)
    (h4 : r.ok = false → ErrorBodyOk r) :
    OtherNotice s ((confirmDelete (.response r)).exec s) := by
  obtain ⟨idText, tokenText, uid, hu, hi, htok⟩ := hs
  cases hok : r.ok with
  | false =>
    obtain ⟨data, m, t, hj, hm, ht, hne⟩ := h4 hok
    obtain ⟨shown, hsh, hsn⟩ := orElse_text m t "Failed to delete profile" ht hne (by decide)
    refine ⟨"error", shown, ?_, hsn⟩
    simp [confirmDelete, Js.exec, Js.tryCatch, bind, Js.andThen, Js.get, Js.lift,
      fetch, Js.modify, showAlert, hj, hok, hm, hu, hi, htok, hsh, notice]
  | true =>
    refine ⟨"success", "Profile deleted successfully!", ?_, by decide⟩
    simp [confirmDelete, Js.exec, Js.tryCatch, bind, Js.andThen, Js.get, Js.lift,
      fetch, Js.modify, showAlert, hok, hu, hi, htok, closeDeleteModal, renderNoProfile,
      notice, toStr_str]

theorem loadUsers_on_response (B : Browser) (s : State) (r : Response) (hdr : HeaderReady s)
    (h2 : r.ok = true → ∃ users, r.json = .ok (.arr users) ∧ ∀ u ∈ users, UserRecord u)
    (h4 : r.ok = false → ErrorBodyOk r) :
    ((loadUsers B (.response r)).exec s).alerts = s.alerts
    ∧ ((r.ok = true
        ∧ (((loadUsers B (.response r)).exec s).usersContent = noUsersHtml
          ∨ ∃ rows, ((loadUsers B (.response r)).exec s).usersContent
              = usersTableOpen ++ String.join rows ++ usersTableClose))
      ∨ (r.ok = false
        ∧ ∃ text, ((loadUsers B (.response r)).exec s).usersContent
              = "<div class=\"alert alert-error\">" ++ text ++ "</div>"
            ∧ text ≠ "Failed to connect to server")) := by
  obtain ⟨tokenText, htok⟩ := hdr
  cases hok : r.ok with
  | false =>
    obtain ⟨data, m, t, hj, hm, ht, hne⟩ := h4 hok
    obtain ⟨shown, hsh, hsn⟩ := orElse_text m t "Failed to load users" ht hne (by decide)
    refine ⟨?_, Or.inr ⟨rfl, shown, ?_, hsn⟩⟩ <;>
      simp [loadUsers, Js.exec, Js.tryCatch, bind, Js.andThen, Js.get, Js.lift, fetch,
        Js.modify, hj, hok, hm, htok, hsh, usersErrorHtml]
  | true =>
    obtain ⟨users, hj, hall⟩ := h2 hok
    obtain ⟨rows, hrows, _⟩ := userRows_of_records B users hall
    cases users with
    | nil =>
      refine ⟨?_, Or.inl ⟨rfl, Or.inl ?_⟩⟩ <;>
        simp [loadUsers, Js.exec, Js.tryCatch, bind, Js.andThen, Js.get, Js.lift, fetch,
          Js.modify, hok, hj, htok, JsVal.getProp, JsVal.ofNat, isZero]
    | cons u rest =>
      have hlen : isZero (JsVal.ofNat (rest.length + 1)) = false := by
        simp [isZero, JsVal.ofNat]
      refine ⟨?_, Or.inl ⟨rfl, Or.inr ⟨rows, ?_⟩⟩⟩ <;>
        simp [loadUsers, Js.exec, Js.tryCatch, bind, Js.andThen, Js.get, Js.lift, fetch,
          Js.modify, hok, hj, htok, JsVal.getProp, hlen, jsMapRows, hrows]

set_option maxRecDepth 8000 in
/-- C4, as amended. A `fetch` that throws makes `handleRegister`, `handleLogin`,
`handleUpdateProfile`, `confirmDelete` and (when a session user exists, so that the
function reaches its request) `handleSaveProfile` append the notice
"Failed to connect to server", and makes `loadUsers` write that text into the users panel
as an error alert; `loadProfile` shows no notice and renders the empty-profile markup. A
received response makes the handler show exactly one notice, with another text, when its
request can be built and what it reads of the response can be read: off 2xx the body is
JSON with properties whose message has a text that is not itself that text; on 2xx the
body of a registration is JSON and the token of a login can be decoded. For such a
response `loadUsers` shows no notice and writes the listing (on 2xx, for an array of user
records) or an error alert with another text (off 2xx), and `loadProfile` shows no
notice for any response. -/
theorem connect_message_cases (B : Browser) (s : State) (e : String) (r : Response)
    (profileRes : FetchResult) :
    ((handleRegister B (.networkError e)).exec s).alerts = s.alerts ++ [connectNotice]
    ∧ ((handleLogin B (.networkError e) profileRes).exec s).alerts = s.alerts ++ [connectNotice]
    ∧ (s.currentUser.nullish = false →
        ((handleSaveProfile B (.networkError e) profileRes).exec s).alerts
          = s.alerts ++ [connectNotice])
    ∧ ((handleUpdateProfile B (.networkError e) profileRes).exec s).alerts
        = s.alerts ++ [connectNotice]
    ∧ ((confirmDelete (.networkError e)).exec s).alerts = s.alerts ++ [connectNotice]
    ∧ ((loadUsers B (.networkError e)).exec s).usersContent
        = "<div class=\"alert alert-error\">Failed to connect to server</div>"
    ∧ (((loadProfile B (.networkError e)).exec s).alerts = s.alerts
        ∧ ((loadProfile B (.networkError e)).exec s).profileContent = noProfileHtml
        ∧ Contains "No profile created yet" noProfileHtml)
    ∧ ((r.ok = true → ∃ data, r.json = .ok data) → (r.ok = false → ErrorBodyOk r) →
        OtherNotice s ((handleRegister B (.response r)).exec s))
    ∧ ((r.ok = true → ∃ data tok, r.json = .ok data ∧ data.getProp "token" = .ok tok
          ∧ Decodable B tok) → (r.ok = false → ErrorBodyOk r) →
        OtherNotice s ((handleLogin B (.response r) profileRes).exec s))
    ∧ (SaveReady s → (r.ok = false → ErrorBodyOk r) →
        OtherNotice s ((handleSaveProfile B (.response r) profileRes).exec s))
    ∧ ((∃ idText tokenText, ProfileRequest s idText tokenText) →
        (r.ok = false → ErrorBodyOk r) →
        OtherNotice s ((handleUpdateProfile B (.response r) profileRes).exec s)
        ∧ OtherNotice s ((confirmDelete (.response r)).exec s))
    ∧ (HeaderReady s →
        (r.ok = true → ∃ users, r.json = .ok (.arr users) ∧ ∀ u ∈ users, UserRecord u) →
        (r.ok = false → ErrorBodyOk r) →
        ((loadUsers B (.response r)).exec s).alerts = s.alerts
        ∧ ((r.ok = true
            ∧ (((loadUsers B (.response r)).exec s).usersContent = noUsersHtml
              ∨ ∃ rows, ((loadUsers B (.response r)).exec s).usersContent
                  = usersTableOpen ++ String.join rows ++ usersTableClose))
          ∨ (r.ok = false
            ∧ ∃ text, ((loadUsers B (.response r)).exec s).usersContent
                  = "<div class=\"alert alert-error\">" ++ text ++ "</div>"
                ∧ text ≠ "Failed to connect to server")))
    ∧ Contains "No users found" noUsersHtml ∧ Contains "<table" usersTableOpen
    ∧ ((loadProfile B (.response r)).exec s).alerts = s.alerts := by
  refine ⟨?_, ?_, ?_, ?_, ?_, ?_, ⟨?_, ?_, by decide⟩, ?_, ?_, ?_, ?_, ?_, by decide, by decide,
    ?_⟩
  · simp [handleRegister, Js.exec, Js.tryCatch, bind, Js.andThen, Js.get, Js.lift, fetch,
      Js.modify, showAlert, connectNotice, notice, toStr_str, connectMessage]
  · simp [handleLogin, Js.exec, Js.tryCatch, bind, Js.andThen, Js.get, Js.lift, fetch,
      Js.modify, showAlert, connectNotice, notice, toStr_str, connectMessage]
  · intro hs
    obtain ⟨uid, hu⟩ := getProp_of_not_nullish s.currentUser "user_id" hs
    obtain ⟨un, hn⟩ := getProp_of_not_nullish s.currentUser "username" hs
    cases ht : s.token.toStr <;>
      simp [handleSaveProfile, Js.exec, Js.tryCatch, bind, Js.andThen, Js.get, Js.lift, fetch,
        Js.modify, showAlert, connectNotice, notice, toStr_str, connectMessage, hu, hn, ht]
  · cases hu : s.currentUser.getProp "user_id" with
    | error e =>
      simp [handleUpdateProfile, Js.exec, Js.tryCatch, bind, Js.andThen, Js.get, Js.lift,
        fetch, Js.modify, showAlert, connectNotice, notice, toStr_str, connectMessage, hu]
    | ok uid =>
      cases hi : uid.toStr with
      | error e =>
        simp [handleUpdateProfile, Js.exec, Js.tryCatch, bind, Js.andThen, Js.get, Js.lift,
          fetch, Js.modify, showAlert, connectNotice, notice, toStr_str, connectMessage, hu, hi]
      | ok idText =>
        cases ht : s.token.toStr <;>
          simp [handleUpdateProfile, Js.exec, Js.tryCatch, bind, Js.andThen, Js.get, Js.lift,
            fetch, Js.modify, showAlert, connectNotice, notice, toStr_str, connectMessage, hu,
            hi, ht]
  · cases hu : s.currentUser.getProp "user_id" with
    | error e =>
      simp [confirmDelete, Js.exec, Js.tryCatch, bind, Js.andThen, Js.get, Js.lift,
        fetch, Js.modify, showAlert, connectNotice, notice, toStr_str, connectMessage, hu]
    | ok uid =>
      cases hi : uid.toStr with
      | error e =>
        simp [confirmDelete, Js.exec, Js.tryCatch, bind, Js.andThen, Js.get, Js.lift,
          fetch, Js.modify, showAlert, connectNotice, notice, toStr_str, connectMessage, hu, hi]
      | ok idText =>
        cases ht : s.token.toStr <;>
          simp [confirmDelete, Js.exec, Js.tryCatch, bind, Js.andThen, Js.get, Js.lift,
            fetch, Js.modify, showAlert, connectNotice, notice, toStr_str, connectMessage, hu,
            hi, ht]
  · cases ht : s.token.toStr <;>
      simp [loadUsers, Js.exec, Js.tryCatch, bind, Js.andThen, Js.get, Js.lift, fetch,
        Js.modify, ht, usersErrorHtml, connectMessage]
  · exact loadProfile_alerts B _ s
  · exact ((loadProfile_not_ok B s ⟨404, "", .error ""⟩ rfl).2 e).2.2
  · exact handleRegister_other_notice B s r
  · exact handleLogin_other_notice B s r profileRes
  · exact handleSaveProfile_other_notice B s r profileRes
  · exact fun hs h4 => ⟨handleUpdateProfile_other_notice B s r profileRes hs h4,
      confirmDelete_other_notice s r hs h4⟩
  · exact loadUsers_on_response B s r
  · exact loadProfile_alerts B _ s

/-- Witness of C4 as amended: the session of `alice`, a failed `fetch` and a 409 with a
message. -/
theorem connect_message_cases_witness :
    aliceSession.currentUser.nullish = false
    ∧ (∃ idText tokenText, ProfileRequest aliceSession idText tokenText)
    ∧ (conflict.ok = false → ErrorBodyOk conflict)
    ∧ ((handleSaveProfile exampleBrowser (.networkError "Failed to fetch")
        (.response notFound)).exec aliceSession).alerts = [connectNotice]
    ∧ OtherNotice aliceSession ((confirmDelete (.response conflict)).exec aliceSession) :=
  have h := connect_message_cases exampleBrowser aliceSession "Failed to fetch" conflict
    (.response notFound)
  have hs : ∃ idText tokenText, ProfileRequest aliceSession idText tokenText :=
    ⟨"u1", aliceToken, .str "u1", rfl, rfl, rfl⟩
  have hb : conflict.ok = false → ErrorBodyOk conflict := fun _ =>
    ⟨_, _, _, rfl, rfl, rfl, by decide⟩
  ⟨rfl, hs, hb, h.2.2.1 rfl, (h.2.2.2.2.2.2.2.2.2.2.1 hs hb).2⟩

set_option maxRecDepth 8000 in
/-- C4 as stated fails in both directions: `loadProfile` with a `fetch` that throws shows
no notice and renders the empty-profile markup, in which the text does not occur; and
`confirmDelete` given a received 500 response whose body is not JSON shows the notice
"Failed to connect to server". -/
theorem connect_message_not_the_class :
    ((loadProfile exampleBrowser (.networkError "Failed to fetch")).exec aliceSession).alerts = []
    ∧ ((loadProfile exampleBrowser (.networkError "Failed to fetch")).exec
        aliceSession).profileContent = noProfileHtml
    ∧ ¬ Contains "Failed to connect to server" noProfileHtml
    ∧ ((confirmDelete (.response serverErrorHtml)).exec aliceSession).alerts
        = [notice "error" "Failed to connect to server"] :=
  ⟨rfl, rfl, by decide, rfl⟩

/-! ## Login -/

/-- C1 does not hold of the code: the token `questionToken` is a well-formed JWT (three
dot-separated segments, the second the base64url encoding of the JSON object with
`sub = "u1"` and `username = "ab?"`), yet after `handleLogin` receives it in a 200
response, whatever the browser and the profile response, `currentUser` is still `null`
and no `currentUser` is stored, while the token is held and stored, the dashboard stays
hidden and the notice is the connectivity one: `atob` of line 85 rejects the character
`_` of the base64url alphabet. -/
theorem handleLogin_base64url_token :
    String.mk (base64urlEncode (utf8Bytes questionPayloadText)) = questionPayloadSegment
    ∧ jsSplit (.str questionToken) '.' = .ok [jwtHeader, questionPayloadSegment, jwtSignature]
    ∧ atob questionPayloadSegment = .error "InvalidCharacterError"
    ∧ loginOkQuestion.ok = true
    ∧ ∀ (B : Browser) (profileRes : FetchResult),
        ((handleLogin B (.response loginOkQuestion) profileRes).exec emptySession).token
          = .str questionToken
        ∧ ((handleLogin B (.response loginOkQuestion) profileRes).exec emptySession).storage
            "token" = some questionToken
        ∧ ((handleLogin B (.response loginOkQuestion) profileRes).exec emptySession).currentUser
            = .null
        ∧ ((handleLogin B (.response loginOkQuestion) profileRes).exec emptySession).storage
            "currentUser" = none
        ∧ ((handleLogin B (.response loginOkQuestion) profileRes).exec
            emptySession).dashboardSectionHidden = true
        ∧ ((handleLogin B (.response loginOkQuestion) profileRes).exec emptySession).alerts
            = [notice "error" "Failed to connect to server"] := by
  have hsp : jsSplit (.str questionToken) '.'
      = .ok [jwtHeader, questionPayloadSegment, jwtSignature] := rfl
  have hidx : jsIndex [jwtHeader, questionPayloadSegment, jwtSignature] 1
      = .str questionPayloadSegment := rfl
  have hat : atob questionPayloadSegment = .error "InvalidCharacterError" := rfl
  have hj : loginOkQuestion.json = .ok (.obj [("token", .str questionToken)]) := rfl
  have hok : loginOkQuestion.ok = true := rfl
  refine ⟨rfl, hsp, rfl, hok, ?_⟩
  intro B profileRes
  simp [handleLogin, Js.exec, Js.tryCatch, bind, Js.andThen, Js.get, Js.lift, fetch,
    Js.modify, showAlert, setItem, hj, hok, getProp_obj, JsVal.lookup, hsp, hidx, hat, notice,
    toStr_str, connectMessage, emptySession]

/-- The same token pattern works when the payload needs no `-` or `_`: the token of
`alice` gives the session of the specification's example. -/
theorem handleLogin_alice_token :
    ((handleLogin exampleBrowser (.response loginOk) (.response notFound)).exec
        emptySession).token = .str aliceToken
    ∧ ((handleLogin exampleBrowser (.response loginOk) (.response notFound)).exec
        emptySession).currentUser = .obj [("user_id", .str "u1"), ("username", .str "alice")]
    ∧ ((handleLogin exampleBrowser (.response loginOk) (.response notFound)).exec
        emptySession).storage "currentUser"
        = some "\x7b\"user_id\":\"u1\",\"username\":\"alice\"\x7d" :=
  ⟨rfl, rfl, rfl⟩

/-- C8 does not hold of the code: from the empty session, one `handleLogin` that receives
a 200 response whose token cannot be decoded leaves the token held and stored while
`currentUser` is `null` and not stored; and one that receives a 200 response without a
token leaves `token` undefined in memory and the text "undefined" stored under `token`.
In both states the token is not absent and `currentUser` is not derived from it. -/
theorem session_invariant_broken_by_login (B : Browser) (profileRes : FetchResult) :
    loginOkGarbage.ok = true
    ∧ (run B emptySession [.handleLogin (.response loginOkGarbage) profileRes]).token
        = .str "garbage"
    ∧ (run B emptySession [.handleLogin (.response loginOkGarbage) profileRes]).storage "token"
        = some "garbage"
    ∧ (run B emptySession [.handleLogin (.response loginOkGarbage) profileRes]).currentUser
        = .null
    ∧ (run B emptySession [.handleLogin (.response loginOkGarbage) profileRes]).storage
        "currentUser" = none
    ∧ (run B emptySession [.handleLogin (.response loginOkNoToken) profileRes]).token
        = .undefined
    ∧ (run B emptySession [.handleLogin (.response loginOkNoToken) profileRes]).storage "token"
        = some "undefined"
    ∧ (run B emptySession [.handleLogin (.response loginOkNoToken) profileRes]).currentUser
        = .null := by
  have hsp : jsSplit (.str "garbage") '.' = .ok ["garbage"] := rfl
  have hidx : jsIndex ["garbage"] 1 = .undefined := rfl
  have hun : JsVal.undefined.toStr = .ok "undefined" := rfl
  have hat : atob "undefined" = .error "InvalidCharacterError" := rfl
  have hg : loginOkGarbage.json = .ok (.obj [("token", .str "garbage")]) := rfl
  have hn : loginOkNoToken.json = .ok (.obj []) := rfl
  have hokg : loginOkGarbage.ok = true := rfl
  have hokn : loginOkNoToken.ok = true := rfl
  have hsu : jsSplit .undefined '.' = .error "TypeError" := rfl
  refine ⟨hokg, ?_, ?_, ?_, ?_, ?_, ?_, ?_⟩ <;>
    simp [run, step, handlerOf, handleLogin, Js.exec, Js.tryCatch, bind, Js.andThen, Js.get,
      Js.lift, fetch, Js.modify, showAlert, setItem, hg, hn, hokg, hokn, getProp_obj,
      JsVal.lookup, hsp, hidx, hun, hat, hsu, toStr_str, emptySession]

/-- What `handleLogin` does with a token it can decode, for every browser: after a 2xx
response whose token is a string, whose second segment `atob` accepts and whose decoded
text parses to a value with properties, whose `username` has a text, the token is held
and stored as received and `currentUser` is held, and stored as JSON text, as the pair of
the `sub` and `username` properties of the payload. -/
theorem handleLogin_decodable_token (B : Browser) (s : State) (r : Response)
    (profileRes : FetchResult) (data : JsVal) (T : String) (parts : List String)
    (segment decoded badge : String) (payload sub name : JsVal)
    (hok : r.ok = true) (hj : r.json = .ok data)
    (ht : data.getProp "token" = .ok (.str T))
    (hsp : jsSplit (.str T) '.' = .ok parts)
    (hseg : (jsIndex parts 1).toStr = .ok segment)
    (hat : atob segment = .ok decoded)
    (hpa : B.jsonParse decoded = some payload)
    (hsub : payload.getProp "sub" = .ok sub) (hname : payload.getProp "username" = .ok name)
    (hbadge : name.toStr = .ok badge) :
    ((handleLogin B (.response r) profileRes).exec s).token = .str T
    ∧ ((handleLogin B (.response r) profileRes).exec s).storage "token" = some T
    ∧ ((handleLogin B (.response r) profileRes).exec s).currentUser
        = .obj [("user_id", sub), ("username", name)]
    ∧ ((handleLogin B (.response r) profileRes).exec s).storage "currentUser"
        = some (B.jsonStringify (.obj [("user_id", sub), ("username", name)])) := by
  obtain ⟨h1, h2, h3⟩ := loadProfile_session B profileRes
  simp [handleLogin, Js.exec, Js.tryCatch, bind, Js.andThen, Js.get, Js.lift, fetch,
    Js.modify, showAlert, hj, hok, ht, hsp, hseg, hat, hpa, hsub, hname, hbadge, setItem,
    showDashboard, getProp_obj, JsVal.lookup, Js.detach, h1, h2, h3, toStr_str]

end Frontend
